import Mathlib

/-!
# Verification of the Hedwig Task Orchestration Core

A shallow embedding, in Lean 4, of the orchestration core of the Hedwig
multi-agent system: the Security Gateway (`src/hedwig/tools/security.py`),
the Tool Registry (`src/hedwig/tools/registry.py`), the Dispatcher
(`src/hedwig/agents/dispatcher.py`), the Agent Executor
(`src/hedwig/agents/executor.py`), the tool/agent base classes
(`src/hedwig/tools/base.py`, `src/hedwig/agents/base.py`) and the retry
loop of the application shell (`src/hedwig/app.py`).

Conventions of the embedding:
* Python functions become Lean functions; methods that mutate an object
  return the updated state explicitly.
* Python exceptions become `Except PyExc` results; a `try/except` block
  becomes a `match` on the inner result.
* External collaborators (the reasoning-engine callback, the user
  confirmation callback, regular-expression matching over the high-risk
  pattern table, and filesystem-dependent path resolution) are parameters
  of the model, universally quantified in the theorems.
* `hedwig/core/models.py` is not part of the provided sources; the plain
  data declared there (`RiskTier`, `ErrorCode`, the task/tool result
  records) is modelled from the spec where indicated.
-/

namespace Hedwig

/-! ## Python string primitives used by the embedded code -/

/-- Python `str.isspace` characters relevant to `str.strip()` (ASCII range). -/
def isPySpace (c : Char) : Bool :=
  c.toNat = 32 || c.toNat = 9 || c.toNat = 10 || c.toNat = 13 ||
    c.toNat = 11 || c.toNat = 12

/-- Python `str.strip()`: drop whitespace from both ends. -/
def pyStrip (s : String) : String :=
  String.mk (((s.data.dropWhile isPySpace).reverse.dropWhile isPySpace).reverse)

/-- Python `str.lower()` (ASCII letters; the tool and agent names involved are ASCII). -/
def pyLower (s : String) : String :=
  String.mk (s.data.map Char.toLower)

/-- Python `str.upper()` (ASCII letters). -/
def pyUpper (s : String) : String :=
  String.mk (s.data.map Char.toUpper)

/-- Python `needle in hay` on strings: contiguous-substring test. -/
def pySubstr (needle hay : String) : Bool :=
  (hay.data.tails).any (fun t => needle.data.isPrefixOf t)

/-- Python `str(x)` on an `Optional[str]`: `None` prints as `"None"`. -/
def pyStrOpt : Option String → String
  | some s => s
  | none => "None"

/-- Python `repr` of a list of strings, as interpolated by an f-string
(`['a', 'b']`); used in the Dispatcher's "no available agents" message. -/
def pyReprStrList (xs : List String) : String :=
  "[" ++ String.intercalate ", " (xs.map (fun x => "'" ++ x ++ "'")) ++ "]"

/-- Python slicing `s[:n]` (by code points, which is what `len` counts). -/
def pyTake (s : String) (n : Nat) : String := String.mk (s.data.take n)

/-- Python `s[len(p):]` after a successful `startswith(p)` test. -/
def pyDropPfx (s p : String) : String := String.mk (s.data.drop p.data.length)

/-! ## Risk tiers

Modelled from the spec: `hedwig/core/models.py` is not in the source tree.
Spec §3: "Risk Tier: a totally ordered enumeration
READ_ONLY < WRITE < EXECUTE < DESTRUCTIVE". The `.value` strings follow the
snake-case naming used throughout the sources (`risk_tier.value`). -/

inductive RiskTier where
  | READ_ONLY
  | WRITE
  | EXECUTE
  | DESTRUCTIVE
deriving DecidableEq, Repr

/-- The list `risk_hierarchy` of `SecurityGateway.assess_risk`
(security.py line 108). -/
def risk_hierarchy : List RiskTier :=
  [.READ_ONLY, .WRITE, .EXECUTE, .DESTRUCTIVE]

/-- `risk_hierarchy.index(t)` — position of a tier in the hierarchy. -/
def riskIndex : RiskTier → Nat
  | .READ_ONLY => 0
  | .WRITE => 1
  | .EXECUTE => 2
  | .DESTRUCTIVE => 3

/-- `.value` string of a tier (modelled from the spec's snake-case naming). -/
def riskValue : RiskTier → String
  | .READ_ONLY => "read_only"
  | .WRITE => "write"
  | .EXECUTE => "execute"
  | .DESTRUCTIVE => "destructive"

/-- The larger of two tiers in the `READ_ONLY < WRITE < EXECUTE < DESTRUCTIVE`
order; `risk_hierarchy[max base_index escalated_index]` computes exactly this. -/
def riskMax (a b : RiskTier) : RiskTier :=
  if riskIndex a ≤ riskIndex b then b else a

theorem riskIndex_lt_length (t : RiskTier) : riskIndex t < risk_hierarchy.length := by
  cases t <;> decide

theorem risk_hierarchy_get_index (t : RiskTier) :
    risk_hierarchy.get ⟨riskIndex t, riskIndex_lt_length t⟩ = t := by
  cases t <;> rfl

theorem riskMax_comm (a b : RiskTier) : riskMax a b = riskMax b a := by
  cases a <;> cases b <;> rfl

theorem riskMax_assoc (a b c : RiskTier) :
    riskMax (riskMax a b) c = riskMax a (riskMax b c) := by
  cases a <;> cases b <;> cases c <;> rfl

/-! ## Exceptions (`hedwig/core/exceptions.py`) -/

/-- The Python exception values the modelled code paths can raise.
`securityGatewayError` is a successfully constructed
`SecurityGatewayError`; `typeError` is a Python `TypeError` (e.g. from a
constructor call with a wrong argument list). -/
inductive PyExc where
  | securityGatewayError (message : String)
  | toolExecutionError (message : String)
  | agentExecutionError (message : String)
  | typeError (message : String)
  | other (message : String)
deriving DecidableEq, Repr

/-- Python `str(e)` of an exception: its message. -/
def pyStrExc : PyExc → String
  | .securityGatewayError m => m
  | .toolExecutionError m => m
  | .agentExecutionError m => m
  | .typeError m => m
  | .other m => m

/-- Calling `SecurityGatewayError(...)` from `core/exceptions.py`.  Its
`__init__` signature is `(self, message, tool_name, risk_tier, details=None)`
with no `cause` parameter.  A call supplying fewer than three positional
arguments, or a `cause=` keyword, is itself a Python `TypeError`, raised at
construction time — before anything can be raised as a gateway error. -/
def mkSecurityGatewayError (positional : List String) (causeKeyword : Bool) :
    Except PyExc PyExc :=
  if causeKeyword then
    .error (.typeError
      "SecurityGatewayError.__init__() got an unexpected keyword argument 'cause'")
  else
    match positional with
    | [message, _tool_name, _risk_tier] => .ok (.securityGatewayError message)
    | [_, _] => .error (.typeError
        "SecurityGatewayError.__init__() missing 1 required positional argument: 'risk_tier'")
    | _ => .error (.typeError "SecurityGatewayError.__init__() wrong number of arguments")

/-! ## Tools (`hedwig/tools/base.py`) -/

/-- `ToolOutput` (modelled from the spec §6, `hedwig/core/models.py` being
absent from the sources): `execute(args) -> { success, textSummary,
artifacts[], metadata }`, plus the `error_message` field that
`Tool.run`'s failure branch populates. -/
structure ToolOutputM where
  text_summary : String
  artifacts : List Nat
  success : Bool
  error_message : Option String := none
deriving DecidableEq, Repr

/-- A tool's subclass-provided behaviour, generic in the argument
representation `α`: `args_schema(**kwargs)` validation and `_run`.  Either
may raise (pydantic validation errors, or any fault inside the tool);
a raised exception is carried as `Except.error` with its message. -/
structure ToolImpl (α : Type) where
  validateArgs : α → Except String α
  runImpl : α → Except String ToolOutputM

/-- `Tool.run` (tools/base.py lines 94–126): validate the arguments, call
`_run`, and convert any exception from either step into a failed
`ToolOutput` — `run` itself never raises. -/
def toolRun {α : Type} (impl : ToolImpl α) (kwargs : α) : ToolOutputM :=
  match impl.validateArgs kwargs >>= impl.runImpl with
  | .ok result => result
  | .error e =>
      { text_summary := "Tool execution failed: " ++ e
        artifacts := []
        success := false
        error_message := some e }

/-! ## Security Gateway (`hedwig/tools/security.py`)

The gateway's argument analysis stringifies every argument value
(`str(kwargs['command'])`, `str(arg_value)`), so tool-call arguments are
modelled as a list of string key/value pairs in Python dict insertion
order. -/

/-- Tool-call keyword arguments: `**kwargs` as an insertion-ordered mapping. -/
abbrev Kwargs := List (String × String)

/-- A tool as the gateway sees it: `tool.name`, `tool.__class__.__name__`,
the declared static `tool.risk_tier`, and the `run` behaviour. -/
structure ToolSpec where
  name : String
  className : String
  risk_tier : RiskTier
  impl : ToolImpl Kwargs

/-- The environment-dependent predicates of the gateway's dynamic analysis:
`patternHit cmd` is "some pattern of `_load_risk_patterns` matches `cmd`
under `re.search(..., re.IGNORECASE)`", and `isSystemPath p` is
`SecurityGateway._is_system_path(p)` (which resolves `p` against the real
filesystem).  Both are parameters of the model. -/
structure SecEnv where
  patternHit : String → Bool
  isSystemPath : String → Bool

/-- `SecurityGateway._analyze_arguments` (security.py lines 123–160):
returns the escalated tier of the first matching argument signal,
or `none`. -/
def analyze_arguments (env : SecEnv) (tool : ToolSpec) (kwargs : Kwargs) :
    Option RiskTier :=
  let tool_name := pyLower tool.name
  -- Special handling for BashTool: a matching high-risk pattern returns from
  -- the loop; otherwise control falls through to the later checks.
  if pySubstr "bash" tool_name && (kwargs.lookup "command").isSome
      && env.patternHit (pyStrip ((kwargs.lookup "command").getD "")) then
    some .DESTRUCTIVE
  -- Special handling for file operations: first path-like argument naming a
  -- system path returns from the loop.
  else if pySubstr "file" tool_name
      && kwargs.any (fun kv => pySubstr "path" (pyLower kv.1) && env.isSystemPath kv.2) then
    some .EXECUTE
  else if pySubstr "python" tool_name && pySubstr "execute" tool_name then
    some .EXECUTE
  else none

/-- `SecurityGateway.assess_risk` (security.py lines 88–121): the element of
`risk_hierarchy` at the larger of the static tier's index and the escalated
tier's index (0 when no signal matched). -/
def assess_risk (env : SecEnv) (tool : ToolSpec) (kwargs : Kwargs) : RiskTier :=
  let base_risk := tool.risk_tier
  let escalated_risk := analyze_arguments env tool kwargs
  let base_index := riskIndex base_risk
  let escalated_index := match escalated_risk with
    | some r => riskIndex r
    | none => 0
  risk_hierarchy.getD (max base_index escalated_index) .READ_ONLY

/-- A record of `_denied_operations` (security.py `_record_denial`);
`time.time()` is environment-dependent and is threaded in as `timestamp`. -/
structure DenialRecord where
  timestamp : Nat
  tool_name : String
  tool_class : String
  risk_tier : String
  reason : String
  arguments : Kwargs
deriving DecidableEq, Repr

/-- The gateway's mutable state: the `_denied_operations` list. -/
structure GatewayState where
  denied_operations : List DenialRecord := []
deriving DecidableEq, Repr

/-- `SecurityGateway._record_denial` (security.py lines 295–320): append the
record and drop the oldest entry once the list exceeds 100. -/
def record_denial (st : GatewayState) (now : Nat) (tool : ToolSpec)
    (risk_tier : RiskTier) (reason : String) (kwargs : Kwargs) : GatewayState :=
  let rec' : DenialRecord :=
    { timestamp := now
      tool_name := tool.name
      tool_class := tool.className
      risk_tier := riskValue risk_tier
      reason := reason
      arguments := kwargs }
  let ops := st.denied_operations ++ [rec']
  { denied_operations := if ops.length > 100 then ops.drop 1 else ops }

/-- `SecurityGateway._build_confirmation_message` (security.py lines 259–293). -/
def build_confirmation_message (tool : ToolSpec) (risk_tier : RiskTier)
    (kwargs : Kwargs) : String :=
  let pair := if risk_tier = .DESTRUCTIVE then
      ("⚠️  DESTRUCTIVE OPERATION WARNING ⚠️",
       "This operation could cause permanent damage to your system.")
    else
      ("🔒 EXECUTION CONFIRMATION REQUIRED",
       "This operation will execute code or system commands.")
  let args_display :=
    String.intercalate ", " (kwargs.map (fun kv => kv.1 ++ "=" ++ kv.2))
  let args_display :=
    if args_display.data.length > 100 then pyTake args_display 97 ++ "..."
    else args_display
  pair.1 ++ "\n\nTool: " ++ tool.name ++ " (" ++ tool.className ++ ")\nRisk Level: " ++
    pyUpper (riskValue risk_tier) ++ "\nArguments: " ++ args_display ++ "\n\n" ++
    pair.2 ++ "\n\nDo you want to proceed with this operation?"

/-- The injected user-confirmation callback
`(message, timeout) -> bool`; it may itself raise. -/
abbrev ConfirmCb := String → Nat → Except PyExc Bool

/-- `SecurityGateway._request_user_confirmation` (security.py lines 220–257):
with no callback configured, deny and record a denial with reason
"No confirmation callback"; otherwise ask, recording a denial on refusal
("User denied") or on a callback exception ("Callback error: ..."). -/
def request_user_confirmation (cb : Option ConfirmCb) (timeout : Nat) (now : Nat)
    (st : GatewayState) (tool : ToolSpec) (risk_tier : RiskTier) (kwargs : Kwargs) :
    Bool × GatewayState :=
  match cb with
  | none => (false, record_denial st now tool risk_tier "No confirmation callback" kwargs)
  | some f =>
      let message := build_confirmation_message tool risk_tier kwargs
      match f message timeout with
      | .ok true => (true, st)
      | .ok false => (false, record_denial st now tool risk_tier "User denied" kwargs)
      | .error e =>
          (false, record_denial st now tool risk_tier
            ("Callback error: " ++ pyStrExc e) kwargs)

/-- `SecurityGateway.check_authorization` (security.py lines 185–218):
READ_ONLY and WRITE are always allowed; EXECUTE and DESTRUCTIVE go through
user confirmation.  (The Python fallback `return False` for an unknown tier
is unreachable over the four-valued enumeration.) -/
def check_authorization (cb : Option ConfirmCb) (timeout : Nat) (now : Nat)
    (st : GatewayState) (tool : ToolSpec) (risk_tier : RiskTier) (kwargs : Kwargs) :
    Bool × GatewayState :=
  match risk_tier with
  | .READ_ONLY => (true, st)
  | .WRITE => (true, st)
  | .EXECUTE => request_user_confirmation cb timeout now st tool risk_tier kwargs
  | .DESTRUCTIVE => request_user_confirmation cb timeout now st tool risk_tier kwargs

/-- `SecurityGateway.execute_tool` (security.py lines 322–362).  On denial the
code executes `raise SecurityGatewayError(msg, "SecurityGateway")` — a
two-positional-argument construction that itself raises `TypeError`; the
`except Exception` handler then runs
`raise SecurityGatewayError(..., "SecurityGateway", cause=e)`, whose
construction raises `TypeError` again, and that exception propagates.
On authorization the tool's `run` executes (it never raises, tools/base.py). -/
def execute_tool (env : SecEnv) (cb : Option ConfirmCb) (timeout : Nat) (now : Nat)
    (st : GatewayState) (tool : ToolSpec) (kwargs : Kwargs) :
    Except PyExc ToolOutputM × GatewayState :=
  let risk_tier := assess_risk env tool kwargs
  let (authorized, st') := check_authorization cb timeout now st tool risk_tier kwargs
  if authorized then
    (.ok (toolRun tool.impl kwargs), st')
  else
    match mkSecurityGatewayError
        ["Tool execution denied: " ++ tool.name ++ " (risk: " ++ riskValue risk_tier ++ ")",
         "SecurityGateway"] false with
    | .ok exc => (.error exc, st')  -- `except SecurityGatewayError: raise`
    | .error e =>  -- `except Exception as e:` — the handler's own raise
        match mkSecurityGatewayError
            ["Tool execution failed: " ++ pyStrExc e, "SecurityGateway"] true with
        | .ok exc2 => (.error exc2, st')
        | .error e2 => (.error e2, st')

/-! ## Tool Registry (`hedwig/tools/registry.py`)

`ToolRegistry._tools` is a Python dict keyed by `tool.name`; it is modelled
as an insertion-ordered association list with unique keys.  The registry is
generic in the stored tool representation (the executor stores richer tool
records than the C8 identity argument needs); `name` extracts the key. -/

/-- `ToolRegistry.register` (registry.py lines 28–48): raise
`ToolExecutionError` when the name is taken — before any mutation — and
otherwise insert.  The returned registry is unchanged on failure. -/
def registryRegister {τ : Type} (name : τ → String)
    (tools : List (String × τ)) (tool : τ) :
    Except PyExc Unit × List (String × τ) :=
  if (tools.lookup (name tool)).isSome then
    (.error (.toolExecutionError ("Tool '" ++ name tool ++ "' is already registered")),
     tools)
  else
    (.ok (), tools ++ [(name tool, tool)])

/-- `ToolRegistry.get` (registry.py lines 50–70): raise `ToolExecutionError`
naming the available tools when absent, else return the stored instance. -/
def registryGet {τ : Type} (tools : List (String × τ)) (tool_name : String) :
    Except PyExc τ :=
  match tools.lookup tool_name with
  | none =>
      .error (.toolExecutionError
        ("Tool '" ++ tool_name ++ "' not found. Available tools: " ++
          String.intercalate ", " (tools.map Prod.fst)))
  | some t => .ok t

/-- `ToolRegistry.has_tool` (registry.py lines 126–136). -/
def registryHasTool {τ : Type} (tools : List (String × τ)) (tool_name : String) : Bool :=
  (tools.lookup tool_name).isSome

/-! ## Dispatcher (`hedwig/agents/dispatcher.py`)

`specialist_agents` is a dict keyed by `description["agent_name"]`, modelled
as an insertion-ordered association list.  The routing callback is the
injected reasoning engine; it may raise. -/

/-- An agent's structured description, per `BaseAgent.description`. -/
structure AgentDesc where
  purpose : String
  capabilities : List String
  example_tasks : List String

/-- A conversation message: role and content. -/
structure Msg where
  role : String
  content : String

/-- The routing callback `(prompt) -> response`; it may raise. -/
abbrev RouteCb := String → Except PyExc String

/-- Python truthiness of `msg.content[:150] + "..." if len(...) > 150 else ...`
style truncation used in `_build_routing_context`. -/
def truncAt (s : String) (n : Nat) : String :=
  if s.data.length > n then pyTake s n ++ "..." else s

/-- `DispatcherAgent._build_routing_context` (dispatcher.py lines 145–197). -/
def build_routing_context (available_agents : List (String × AgentDesc))
    (conversation : List Msg) (excluded_agents : List String) : String :=
  let bar := String.mk (List.replicate 50 '=')
  let agentLines := available_agents.flatMap (fun (agent_name, desc) =>
    ["\n**" ++ agent_name ++ "**", "Purpose: " ++ desc.purpose] ++
    (if desc.capabilities.isEmpty then [] else
      ["Capabilities: " ++ String.intercalate ", " desc.capabilities]) ++
    (if desc.example_tasks.isEmpty then []
     else
      "Example tasks:" ::
        ((desc.example_tasks.enumFrom 1).map
          (fun ei => "  " ++ toString ei.1 ++ ". " ++ ei.2))))
  let convLines := if conversation.isEmpty then [] else
      ("\n" ++ bar) :: "Recent Conversation Context:" ::
        ((conversation.drop (conversation.length - 3)).map
          (fun m => pyUpper m.role ++ ": " ++ truncAt m.content 150))
  let exclLines := if excluded_agents.isEmpty then [] else
      ("\n" ++ bar) ::
      "Note: The following agents have already been tried and failed:" ::
      (excluded_agents.map (fun a => "- " ++ a)) ++ ["Please choose a different agent."]
  String.intercalate "\n"
    (["Available Specialist Agents:", bar] ++ agentLines ++ convLines ++ exclLines)

/-- `DispatcherAgent._heuristic_routing` (dispatcher.py lines 247–272): the
fixed keyword heuristic.  Note that every membership test is against the
full `specialist_agents` dict (the registered agents), not the available
set. -/
def heuristic_routing (specialist_agents : List (String × AgentDesc))
    (prompt : String) : String :=
  let prompt_lower := pyLower prompt
  let registered := fun n => (specialist_agents.lookup n).isSome
  if ["code", "script", "program", "function", "class", "bug", "debug"].any
      (fun w => pySubstr w prompt_lower) && registered "SWEAgent" then
    "SWEAgent"
  else if ["research", "search", "find", "investigate", "analyze", "study"].any
      (fun w => pySubstr w prompt_lower) && registered "ResearchAgent" then
    "ResearchAgent"
  else if registered "GeneralAgent" then
    "GeneralAgent"
  else
    ((specialist_agents.map Prod.fst).headD "")

/-- The boilerplate removed from the raw routing reply
(`_make_routing_decision`, dispatcher.py lines 236–239). -/
def routingReplyPrefixes : List String :=
  ["Selected Agent:", "Agent:", "I choose:", "The best agent is:"]

/-- Cleaning of the raw callback reply (`_make_routing_decision`, dispatcher.py
lines 228–241): strip, take the first line, strip again, then peel the known
boilerplate prefixes in order, stripping after each removal. -/
def cleanRoutingReply (raw : String) : String :=
  let selected := pyStrip raw
  let selected := pyStrip (String.mk (selected.data.takeWhile (· ≠ '\n')))
  routingReplyPrefixes.foldl
    (fun sel p => if p.data.isPrefixOf sel.data then pyStrip (pyDropPfx sel p) else sel)
    selected

/-- The fixed routing-prompt template (`_make_routing_decision`, dispatcher.py
lines 215–223). -/
def routingPrompt (context prompt : String) : String :=
  "You are a task dispatcher that routes user requests to the most appropriate specialist agent.\n\n"
    ++ context ++ "\n\nUser Request: \"" ++ prompt ++
    "\"\n\nIMPORTANT: Respond with ONLY the agent name that is best suited for this task. Choose from the available agents listed above.\n\nSelected Agent:"

/-- `DispatcherAgent._make_routing_decision` (dispatcher.py lines 199–245):
with no callback, route by the keyword heuristic; with one, clean its reply,
falling back to the heuristic if the callback raises. -/
def make_routing_decision (llm_callback : Option RouteCb)
    (specialist_agents : List (String × AgentDesc)) (prompt context : String) : String :=
  match llm_callback with
  | none => heuristic_routing specialist_agents prompt
  | some cb =>
      match cb (routingPrompt context prompt) with
      | .ok llm_response => cleanRoutingReply llm_response
      | .error _ => heuristic_routing specialist_agents prompt

/-- The filtering of excluded agents in `route_task` (dispatcher.py lines
106–109): `if not excluded_agents or name not in excluded_agents`. -/
def availableAgents (specialist_agents : List (String × AgentDesc))
    (excluded_agents : List String) : List (String × AgentDesc) :=
  specialist_agents.filter
    (fun na => excluded_agents.isEmpty || !excluded_agents.contains na.1)

/-- `DispatcherAgent.route_task` (dispatcher.py lines 76–143).  Any exception
raised inside the body is wrapped as
`AgentExecutionError("Failed to route task: " + str(e))` by the surrounding
handler.  The routing-history append does not affect the returned name and
is not modelled. -/
def route_task (llm_callback : Option RouteCb)
    (specialist_agents : List (String × AgentDesc)) (prompt : String)
    (conversation : List Msg) (excluded_agents : List String) :
    Except PyExc String :=
  let inner : Except PyExc String :=
    if specialist_agents.isEmpty then
      .error (.agentExecutionError "No specialist agents registered with dispatcher")
    else
      let available_agents := availableAgents specialist_agents excluded_agents
      if available_agents.isEmpty then
        .error (.agentExecutionError
          ("No available agents after excluding: " ++ pyReprStrList excluded_agents))
      else
        let routing_context :=
          build_routing_context available_agents conversation excluded_agents
        let selected_agent :=
          make_routing_decision llm_callback specialist_agents prompt routing_context
        if (available_agents.lookup selected_agent).isSome then
          .ok selected_agent
        else
          .ok ((available_agents.map Prod.fst).headD "")
  match inner with
  | .ok name => .ok name
  | .error e => .error (.agentExecutionError ("Failed to route task: " ++ pyStrExc e))

/-! ## Task results and the retry loop (`hedwig/app.py`)

`TaskOutput` and `ErrorCode` live in the absent `hedwig/core/models.py`;
they are modelled from the spec (§3 "Task Result", §7 error kinds) with the
field and member names the sources use.  Metadata values are heterogeneous
in Python; the variants below cover the keys the retry loop writes. -/

/-- Error codes, modelled from the spec §7; member names as the sources
spell them (`ErrorCode.TASK_REJECTED_AS_INAPPROPRIATE`, etc.). -/
inductive ErrorCode where
  | INVALID_INPUT
  | AGENT_EXECUTION_FAILED
  | TASK_REJECTED_AS_INAPPROPRIATE
  | SECURITY_GATEWAY_DENIAL
  | TOOL_EXECUTION_FAILED
  | GENERAL_ERROR
deriving DecidableEq, Repr

/-- A metadata value: the retry loop stores booleans, numbers, strings and
string lists. -/
inductive MetaVal where
  | b (v : Bool)
  | n (v : Nat)
  | s (v : String)
  | os (v : Option String)
  | ls (v : List String)
deriving DecidableEq, Repr

/-- `TaskOutput` (modelled from the spec §3 "Task Result"): content text,
success flag, optional error message and code, and a metadata mapping.
The conversation list is owned by the thread bookkeeping, which no claim
touches, and is elided. -/
structure TaskOutputM where
  content : String
  success : Bool
  error : Option String := none
  error_code : Option ErrorCode := none
  metadata : List (String × MetaVal) := []
deriving DecidableEq, Repr

/-- `BaseAgent.reject_task` (agents/base.py lines 144–171): the standardized
rejection result. -/
def reject_task (agent_name : String) (reason : String) : TaskOutputM :=
  { content := "I cannot handle this task: " ++ reason
    success := false
    error := some ("Task rejected by " ++ agent_name ++ ": " ++ reason)
    error_code := some .TASK_REJECTED_AS_INAPPROPRIATE
    metadata := [("agent_name", .s agent_name),
                 ("rejection_reason", .s reason),
                 ("can_retry", .b true)] }

/-- One attempt of the retry loop: routing through the dispatcher plus the
selected agent's `run`, abstracted as a single injected step.  It receives
the attempt index (`parameters["attempt"] - 1`) and the current prompt, and
either raises or produces the selected agent's name together with its
result. -/
abbrev RetryStep := Nat → String → Except PyExc (String × TaskOutputM)

/-- The context note appended to the prompt after a rejection
(app.py lines 567–568). -/
def rejectionContextNote (agent_name : String) : String :=
  "\n\nContext: Previous agent (" ++ agent_name ++
    ") rejected the task. Please choose a different, more suitable agent."

/-- The final failure result after `max_retries` rejections
(app.py lines 571–587). -/
def rejectionFinal (max_retries : Nat) (rejected_agents : List String)
    (result : TaskOutputM) : TaskOutputM :=
  { content := "I'm sorry, I was unable to complete the task. The specialist agent reported: "
      ++ pyStrOpt result.error
    success := false
    error := some ("Unable to complete task after " ++ toString max_retries ++
      " attempts. Last rejection: " ++ pyStrOpt result.error)
    error_code := some .AGENT_EXECUTION_FAILED
    metadata := [("final_failure", .b true),
                 ("attempts", .n max_retries),
                 ("rejected_agents", .ls rejected_agents),
                 ("last_error", .os result.error)] }

/-- The final failure result when the last attempt raised
(app.py lines 609–621). -/
def exceptionFinal (max_retries attempt : Nat) (e : PyExc) : TaskOutputM :=
  { content := "I'm sorry, an unexpected error occurred: " ++ pyStrExc e
    success := false
    error := some ("Error in task execution attempt " ++ toString (attempt + 1) ++
      ": " ++ pyStrExc e)
    error_code := some .AGENT_EXECUTION_FAILED
    metadata := [("final_failure", .b true),
                 ("attempts", .n max_retries),
                 ("error_type", .s "exception")] }

/-- The unreachable safety fallback after the loop (app.py lines 629–636). -/
def retrySafetyFallback : TaskOutputM :=
  { content := "Unexpected error in retry logic"
    success := false
    error := some "Retry logic failure"
    error_code := some .AGENT_EXECUTION_FAILED }

/-- The body of `HedwigApp._execute_with_retry` (app.py lines 520–636),
structured by the remaining attempts (`remaining + attempt = max_retries`).
Returns the final `TaskOutput` together with the number of attempts
performed (route-and-run step invocations). -/
def retryGo (step : RetryStep) (max_retries : Nat) :
    Nat → Nat → String → List String → TaskOutputM × Nat
  | 0, _, _, _ => (retrySafetyFallback, 0)
  | remaining + 1, attempt, prompt, rejected_agents =>
    match step attempt prompt with
    | .error e =>
        -- `except Exception`: retry on a non-final attempt with the same
        -- prompt and exclusion state, else fail.
        if remaining > 0 then
          let (res, c) := retryGo step max_retries remaining (attempt + 1) prompt rejected_agents
          (res, c + 1)
        else (exceptionFinal max_retries attempt e, 1)
    | .ok (agent_name, result) =>
        if ¬ result.success ∧ result.error_code = some .TASK_REJECTED_AS_INAPPROPRIATE then
          let rejected' := rejected_agents ++ [agent_name]
          if remaining > 0 then
            let (res, c) := retryGo step max_retries remaining (attempt + 1)
              (prompt ++ rejectionContextNote agent_name) rejected'
            (res, c + 1)
          else (rejectionFinal max_retries rejected' result, 1)
        else (result, 1)

/-- `HedwigApp._execute_with_retry` with its default `max_retries = 3`. -/
def execute_with_retry (step : RetryStep) (prompt : String)
    (max_retries : Nat := 3) : TaskOutputM × Nat :=
  retryGo step max_retries max_retries 0 prompt []

/-! ## JSON (`json.loads` as used by `_extract_tool_call`)

A JSON value and a total recursive-descent parser.  Numbers keep their
literal text: no claim inspects a numeric value, and this avoids modelling
floats.  The parser mirrors `json.loads` on the document class at issue:
an object with string keys, string/number/bool/null/array/object values,
strict string lexing (raw control characters rejected), and no trailing
data. -/

inductive Json where
  | jnull
  | jbool (b : Bool)
  | jnum (lit : String)
  | jstr (s : String)
  | jarr (elems : List Json)
  | jobj (members : List (String × Json))
deriving Repr

/-- JSON inter-token whitespace (RFC 8259; what `json.loads` skips). -/
def isJsonWs (c : Char) : Bool :=
  c.toNat = 32 || c.toNat = 9 || c.toNat = 10 || c.toNat = 13

/-- Value of a hexadecimal digit. -/
def hexDigitVal (c : Char) : Option Nat :=
  let n := c.toNat
  if 48 ≤ n ∧ n ≤ 57 then some (n - 48)
  else if 97 ≤ n ∧ n ≤ 102 then some (n - 87)
  else if 65 ≤ n ∧ n ≤ 70 then some (n - 55)
  else none

/-- Single-character JSON string escapes. -/
def jsonUnescape (c : Char) : Option Char :=
  if c = '"' ∨ c = '\\' ∨ c = '/' then some c
  else if c = 'n' then some (Char.ofNat 10)
  else if c = 't' then some (Char.ofNat 9)
  else if c = 'r' then some (Char.ofNat 13)
  else if c = 'b' then some (Char.ofNat 8)
  else if c = 'f' then some (Char.ofNat 12)
  else none

/-- Lex the body of a JSON string after its opening quote: the decoded
characters and the input after the closing quote.  Structural on the
input list. -/
def scanStrChars : List Char → Option (List Char × List Char)
  | [] => none
  | c :: rest =>
    if c = '"' then some ([], rest)
    else if c = '\\' then
      match rest with
      | 'u' :: h1 :: h2 :: h3 :: h4 :: rest' =>
          match hexDigitVal h1, hexDigitVal h2, hexDigitVal h3, hexDigitVal h4 with
          | some v1, some v2, some v3, some v4 =>
              (scanStrChars rest').map
                (fun p => (Char.ofNat (((v1 * 16 + v2) * 16 + v3) * 16 + v4) :: p.1, p.2))
          | _, _, _, _ => none
      | e :: rest' =>
          match jsonUnescape e with
          | some ch => (scanStrChars rest').map (fun p => (ch :: p.1, p.2))
          | none => none
      | [] => none
    else if c.toNat < 0x20 then none
    else (scanStrChars rest).map (fun p => (c :: p.1, p.2))

/-- ASCII decimal digit. -/
def isDigitCh (c : Char) : Bool := '0' ≤ c && c ≤ '9'

/-- Lex a JSON number literal (`-?int frac? exp?`), returning its text.
`json.loads` rejects leading zeros by ending the number token after `0`. -/
def scanNum (cs : List Char) : Option (List Char × List Char) :=
  let (sign, cs1) := match cs with
    | '-' :: r => (['-'], r)
    | _ => (([] : List Char), cs)
  match cs1 with
  | '0' :: r => some (sign ++ ['0'], r) |>.map (fun p => afterInt p.1 p.2)
  | c :: _ =>
      if isDigitCh c then
        let ds := cs1.takeWhile isDigitCh
        some (afterInt (sign ++ ds) (cs1.dropWhile isDigitCh))
      else none
  | [] => none
where
  /-- Continue after the integer part: optional fraction and exponent. -/
  afterInt (acc : List Char) (cs : List Char) : List Char × List Char :=
    let (acc1, cs1) := match cs with
      | '.' :: r =>
          let ds := r.takeWhile isDigitCh
          if ds.isEmpty then (acc, cs) else (acc ++ '.' :: ds, r.dropWhile isDigitCh)
      | _ => (acc, cs)
    match cs1 with
    | e :: r =>
        if e = 'e' ∨ e = 'E' then
          let (sgn, r1) := match r with
            | '+' :: r' => (['+'], r')
            | '-' :: r' => (['-'], r')
            | _ => (([] : List Char), r)
          let ds := r1.takeWhile isDigitCh
          if ds.isEmpty then (acc1, cs1)
          else (acc1 ++ e :: sgn ++ ds, r1.dropWhile isDigitCh)
        else (acc1, cs1)
    | [] => (acc1, cs1)

/-- The three JSON literal keywords, lexed from a known first character. -/
def scanKeyword (c : Char) (rest : List Char) : Option (Json × List Char) :=
  if c = 't' then
    match rest with
    | 'r' :: 'u' :: 'e' :: r => some (.jbool true, r)
    | _ => none
  else if c = 'f' then
    match rest with
    | 'a' :: 'l' :: 's' :: 'e' :: r => some (.jbool false, r)
    | _ => none
  else if c = 'n' then
    match rest with
    | 'u' :: 'l' :: 'l' :: r => some (.jnull, r)
    | _ => none
  else none

mutual

/-- Parse one JSON value (after skipping leading whitespace), fuelled.
A keyword head that fails to complete, like the final catch-all, is a
number-lexer failure (`json.loads` reports the same position either way). -/
def parseValue : Nat → List Char → Option (Json × List Char)
  | 0, _ => none
  | fuel + 1, cs =>
    match cs.dropWhile isJsonWs with
    | [] => none
    | c :: rest =>
      if c = '"' then (scanStrChars rest).map (fun p => (.jstr (String.mk p.1), p.2))
      else if c = '\x7b' then
        match rest.dropWhile isJsonWs with
        | c2 :: r2 =>
            if c2 = '\x7d' then some (.jobj [], r2)
            else (parseMembers fuel rest).map (fun p => (.jobj p.1, p.2))
        | [] => (parseMembers fuel rest).map (fun p => (.jobj p.1, p.2))
      else if c = '[' then
        match rest.dropWhile isJsonWs with
        | c2 :: r2 =>
            if c2 = ']' then some (.jarr [], r2)
            else (parseElems fuel rest).map (fun p => (.jarr p.1, p.2))
        | [] => (parseElems fuel rest).map (fun p => (.jarr p.1, p.2))
      else if c = 't' ∨ c = 'f' ∨ c = 'n' then scanKeyword c rest
      else (scanNum (c :: rest)).map (fun p => (.jnum (String.mk p.1), p.2))

/-- Parse the members of a non-empty object body (after the `\x7b`). -/
def parseMembers : Nat → List Char → Option (List (String × Json) × List Char)
  | 0, _ => none
  | fuel + 1, cs =>
    match cs.dropWhile isJsonWs with
    | [] => none
    | c :: rest =>
      if c = '"' then
        match scanStrChars rest with
        | none => none
        | some (key, r1) =>
          match r1.dropWhile isJsonWs with
          | [] => none
          | c2 :: r2 =>
            if c2 = ':' then
              match parseValue fuel r2 with
              | none => none
              | some (v, r3) =>
                match r3.dropWhile isJsonWs with
                | [] => none
                | c3 :: r4 =>
                  if c3 = ',' then
                    (parseMembers fuel r4).map
                      (fun p => ((String.mk key, v) :: p.1, p.2))
                  else if c3 = '\x7d' then some ([(String.mk key, v)], r4)
                  else none
            else none
      else none

/-- Parse the elements of a non-empty array body (after the `[`). -/
def parseElems : Nat → List Char → Option (List Json × List Char)
  | 0, _ => none
  | fuel + 1, cs =>
    match parseValue fuel cs with
    | none => none
    | some (v, r1) =>
      match r1.dropWhile isJsonWs with
      | [] => none
      | c2 :: r2 =>
          if c2 = ',' then (parseElems fuel r2).map (fun p => (v :: p.1, p.2))
          else if c2 = ']' then some ([v], r2)
          else none

end

/-- `json.loads`: parse one document and reject trailing data.  The fuel
`length + 1` dominates the recursion depth, which consumes at least one
character per level. -/
def jsonLoads (s : String) : Option Json :=
  match parseValue (s.data.length + 1) s.data with
  | some (v, rest) => if (rest.dropWhile isJsonWs).isEmpty then some v else none
  | none => none

/-- Python `key in dict` / `dict[key]` over a parsed JSON object, whose later
duplicate keys override earlier ones (as in `json.loads`). -/
def jsonObjLookup (members : List (String × Json)) (key : String) : Option Json :=
  (members.reverse.find? (fun kv => kv.1 = key)).map Prod.snd

/-! ## Tool-call extraction (`AgentExecutor._extract_tool_call`)

The pattern is `TOOL_CALL:\s*\x7b([^\x7d]+)\x7d` under `re.search` with
`re.DOTALL` (which only affects `.`, absent here).  At a match position the
pattern is deterministic: the literal marker, a maximal run of whitespace
(`\x7b` is not whitespace, so greediness cannot backtrack), an opening
brace, a maximal non-empty run of non-`\x7d` characters (which cannot
backtrack either, as it is followed by the very character it excludes), and
a closing brace.  `re.search` returns the leftmost such match. -/

/-- Python's `\s` on ASCII input (the relevant characters here). -/
def isReSpace (c : Char) : Bool := isPySpace c

/-- Attempt the pattern at one position; on success return the capture
group (the characters between the braces). -/
def toolCallMatchAt (cs : List Char) : Option (List Char) :=
  match dropMarker cs with
  | none => none
  | some afterMarker =>
    match afterMarker.dropWhile isReSpace with
    | [] => none
    | c :: rest =>
      if c = '\x7b' then
        let group := rest.takeWhile (· ≠ '\x7d')
        if group.isEmpty then none
        else
          match rest.dropWhile (· ≠ '\x7d') with
          | [] => none
          | c2 :: _ => if c2 = '\x7d' then some group else none
      else none
where
  /-- Require the literal marker `TOOL_CALL:` at the head. -/
  dropMarker (cs : List Char) : Option (List Char) :=
    let marker := "TOOL_CALL:".data
    if marker.isPrefixOf cs then some (cs.drop marker.length) else none

/-- `re.search`: the leftmost position where the pattern matches. -/
def toolCallSearch : List Char → Option (List Char)
  | [] => none
  | c :: cs =>
    match toolCallMatchAt (c :: cs) with
    | some g => some g
    | none => toolCallSearch cs

/-- The structured tool call `_extract_tool_call` returns: the `tool_name`
and `arguments` values exactly as parsed (`arguments` defaulting to an
empty object), plus the re-wrapped capture as `raw_call`. -/
structure ToolCall where
  tool_name : Json
  arguments : Json
  raw_call : String

/-- `AgentExecutor._extract_tool_call` (executor.py lines 250–285): search
for the marker pattern, re-wrap the capture in braces, `json.loads` it, and
require a `tool_name` field; any failure yields no tool call.  The parsed
document starts with `\x7b`, so on success it is an object. -/
def extract_tool_call (llm_response : String) : Option ToolCall :=
  match toolCallSearch llm_response.data with
  | none => none
  | some group =>
    let tool_call_json := String.mk ('\x7b' :: group ++ ['\x7d'])
    match jsonLoads tool_call_json with
    | some (.jobj members) =>
        match jsonObjLookup members "tool_name" with
        | none => none
        | some nameVal =>
            some { tool_name := nameVal
                   arguments := (jsonObjLookup members "arguments").getD (.jobj [])
                   raw_call := tool_call_json }
    | _ => none

/-! ## Agent Executor (`hedwig/agents/executor.py`)

The executor's collaborators are injected: the tool registry (modelled as
the association list above, holding the descriptor each tool exposes), the
security gateway (a function which may raise — instantiable with
`execute_tool` above) and the optional reasoning-engine callback. -/

/-- A registered tool as the executor consumes it: `name`, `description`,
`risk_tier` and the `get_schema_description()` text. -/
structure ExecTool where
  name : String
  description : String
  risk_tier : RiskTier
  schema_desc : String

/-- The executor's view of the gateway:
`security_gateway.execute_tool(tool, **arguments)`, which may raise. -/
abbrev GatewayFn := ExecTool → Json → Except PyExc ToolOutputM

/-- Python `str()` of a parsed JSON value, as interpolated into messages
(`f"Tool '{tool_name}' not found in registry"`).  Container renderings are
placeholders: every modelled message path renders only scalars. -/
def pyStrJson : Json → String
  | .jstr s => s
  | .jnum lit => lit
  | .jbool true => "True"
  | .jbool false => "False"
  | .jnull => "None"
  | .jarr _ => "[...]"
  | .jobj _ => "\x7b...\x7d"

/-- The dictionary `_execute_tool_call` returns; branch-absent keys carry
their Python-falsy defaults. -/
structure CallResult where
  success : Bool
  text_summary : String
  artifacts : List Nat := []
  error : Option String := none
deriving DecidableEq, Repr

/-- `AgentExecutor._execute_tool_call` (executor.py lines 287–353).  The
body is one `try` block: an unknown tool yields a failed result without
touching the gateway; a hashable tool name that is not a string is simply
not a key of the registry dict; an unhashable one makes the membership test
itself raise `TypeError`; and any exception — from that test or from the
gateway — is caught and converted into a failed result.  The function
always returns a result dictionary; nothing propagates to the caller. -/
def execute_tool_call (reg : List (String × ExecTool)) (gw : GatewayFn)
    (tc : ToolCall) : CallResult :=
  let inner : Except PyExc CallResult :=
    match tc.tool_name with
    | .jarr _ => .error (.typeError "unhashable type: 'list'")
    | .jobj _ => .error (.typeError "unhashable type: 'dict'")
    | nameVal =>
      let found := match nameVal with
        | .jstr s => registryHasTool reg s
        | _ => false
      if !found then
        .ok { success := false
              error := some ("Tool '" ++ pyStrJson nameVal ++ "' not found in registry")
              text_summary :=
                "Error: Tool '" ++ pyStrJson nameVal ++ "' not found in registry" }
      else
        match registryGet reg (pyStrJson nameVal) with
        | .error e => .error e
        | .ok tool =>
          match gw tool tc.arguments with
          | .error e => .error e
          | .ok result =>
              .ok { success := result.success
                    text_summary := result.text_summary
                    artifacts := result.artifacts }
  match inner with
  | .ok r => r
  | .error e =>
      { success := false
        error := some ("Tool execution failed: " ++ pyStrExc e)
        text_summary :=
          "Error executing " ++ pyStrJson tc.tool_name ++ ": " ++ pyStrExc e }

/-- `AgentExecutor._build_followup_prompt` (executor.py lines 355–383): the
original system prompt plus the latest response, tool call and result. -/
def build_followup_prompt (initial_prompt llm_response : String) (tc : ToolCall)
    (tool_result : CallResult) : String :=
  initial_prompt ++ "\nPrevious response: " ++ llm_response ++
    "\n\nTool call executed: " ++ pyStrJson tc.tool_name ++
    "\nTool result: " ++ tool_result.text_summary ++
    "\n\nContinue with the task. You can make another tool call if needed, or provide a final response.\n"

/-- `AgentExecutor._generate_mock_response` (executor.py lines 385–397). -/
def mockResponse : String :=
  "Mock response: Task would be executed with available tools. No LLM callback configured."

/-- The partial-completion message returned when the iteration budget is
exhausted (executor.py line 179). -/
def partialCompletionMessage (max_iterations : Nat) : String :=
  "Task partially completed. Reached maximum iteration limit (" ++
    toString max_iterations ++ ")."

/-- The outcome of `_execute_reasoning_loop`: the final text, the
`current_iteration` counter and the collected artifacts. -/
structure LoopOut where
  output : String
  iterations : Nat
  artifacts : List Nat
deriving DecidableEq, Repr

/-- The body of `_execute_reasoning_loop` (executor.py lines 127–179),
structured over the remaining iterations (`remaining + done =
max_iterations`): obtain a response (or return the mock immediately),
extract a tool call — none means the response is the final answer — else
run it and fold the result into the next prompt. -/
def reasoningLoopGo (llm : Option (String → String))
    (reg : List (String × ExecTool)) (gw : GatewayFn)
    (max_iterations : Nat) (initial_prompt : String) :
    Nat → Nat → String → List Nat → LoopOut
  | 0, done, _, arts => ⟨partialCompletionMessage max_iterations, done, arts⟩
  | remaining + 1, done, current_prompt, arts =>
    let current_iteration := done + 1
    match llm with
    | none => ⟨mockResponse, current_iteration, arts⟩
    | some f =>
      let llm_response := f current_prompt
      match extract_tool_call llm_response with
      | none => ⟨llm_response, current_iteration, arts⟩
      | some tool_call =>
        let tool_result := execute_tool_call reg gw tool_call
        reasoningLoopGo llm reg gw max_iterations initial_prompt remaining
          current_iteration
          (build_followup_prompt initial_prompt llm_response tool_call tool_result)
          (arts ++ tool_result.artifacts)

/-- `AgentExecutor._execute_reasoning_loop`. -/
def execute_reasoning_loop (llm : Option (String → String))
    (reg : List (String × ExecTool)) (gw : GatewayFn)
    (max_iterations : Nat) (initial_prompt : String) : LoopOut :=
  reasoningLoopGo llm reg gw max_iterations initial_prompt max_iterations 0
    initial_prompt []

/-- `AgentExecutor._build_tools_context` (executor.py lines 181–213). -/
def build_tools_context (reg : List (String × ExecTool))
    (specific_tools : Option (List String)) : String :=
  let available_tools : List ExecTool := match specific_tools with
    | some names => names.filterMap (fun n => reg.lookup n)
    | none => reg.map Prod.snd
  if available_tools.isEmpty then "No tools available."
  else
    String.intercalate "\n"
      (["Available Tools:", String.mk (List.replicate 50 '=')] ++
        available_tools.flatMap (fun t =>
          ["\n**" ++ t.name ++ "**",
           "Description: " ++ t.description,
           "Risk Level: " ++ riskValue t.risk_tier,
           t.schema_desc]))

/-- `AgentExecutor._build_system_prompt` (executor.py lines 215–248),
including the declared tool-call wire format: the `TOOL_CALL:` marker
followed by a JSON object with `tool_name` and `arguments`. -/
def build_system_prompt (tools_context conversation : String) : String :=
  let base :=
    "You are an AI assistant with access to specialized tools to help complete user tasks.\n\nIMPORTANT: When you need to use a tool, format your tool call EXACTLY like this:\nTOOL_CALL: \x7b\n  \"tool_name\": \"exact_tool_name\",\n  \"arguments\": \x7b\n    \"arg1\": \"value1\",\n    \"arg2\": \"value2\"\n  \x7d\n\x7d\n\nAfter making a tool call, wait for the tool result before proceeding. You can make multiple tool calls if needed.\n\nWhen you have completed the task, provide a final response without any tool calls.\n\n"
  let withConv := if conversation = "" then base
    else base ++ "\n" ++ conversation ++ "\n"
  withConv ++ "\n" ++ tools_context ++ "\n"

/-- The constructor default `max_iterations = 10` (executor.py line 39). -/
def defaultMaxIterations : Nat := 10

/-- The dictionary `invoke` returns. -/
structure InvokeResult where
  output : String
  artifacts : List Nat
  iterations : Nat
  success : Bool
  error : Option String := none
deriving DecidableEq, Repr

/-- `AgentExecutor.invoke` (executor.py lines 62–125): reset the per-call
state, reject an empty prompt (through the `except` branch, with
`success=False`), otherwise run the reasoning loop and report its outcome
with `success=True`. -/
def invoke (reg : List (String × ExecTool)) (gw : GatewayFn)
    (llm : Option (String → String)) (max_iterations : Nat)
    (input conversation : String) (tools : Option (List String)) : InvokeResult :=
  if input = "" then
    { output := "Task execution failed: No input prompt provided"
      artifacts := []
      iterations := 0
      success := false
      error := some "No input prompt provided" }
  else
    let tools_context := build_tools_context reg tools
    let system_prompt := build_system_prompt tools_context conversation
    let full_prompt := system_prompt ++ "\n\nUser Request: " ++ input
    let lo := execute_reasoning_loop llm reg gw max_iterations full_prompt
    { output := lo.output
      artifacts := lo.artifacts
      iterations := lo.iterations
      success := true }

/-! ## C2 — risk assessment is the maximum of static tier and matched signals -/

/-- The bash-command argument signal of `_analyze_arguments` (tier
DESTRUCTIVE when matched). -/
def bashSignal (env : SecEnv) (tool : ToolSpec) (kwargs : Kwargs) : Bool :=
  pySubstr "bash" (pyLower tool.name) && (kwargs.lookup "command").isSome
    && env.patternHit (pyStrip ((kwargs.lookup "command").getD ""))

/-- The system-path argument signal of `_analyze_arguments` (tier EXECUTE
when matched). -/
def fileSignal (env : SecEnv) (tool : ToolSpec) (kwargs : Kwargs) : Bool :=
  pySubstr "file" (pyLower tool.name)
    && kwargs.any (fun kv => pySubstr "path" (pyLower kv.1) && env.isSystemPath kv.2)

/-- The python-execution signal of `_analyze_arguments` (tier EXECUTE when
matched). -/
def pythonSignal (tool : ToolSpec) : Bool :=
  pySubstr "python" (pyLower tool.name) && pySubstr "execute" (pyLower tool.name)

/-- The tiers of all matched argument signals, as an (order-irrelevant)
list. -/
def matchedSignalTiers (env : SecEnv) (tool : ToolSpec) (kwargs : Kwargs) :
    List RiskTier :=
  (if bashSignal env tool kwargs then [.DESTRUCTIVE] else []) ++
  (if fileSignal env tool kwargs then [.EXECUTE] else []) ++
  (if pythonSignal tool then [.EXECUTE] else [])

/-- Maximum tier of a list of signal tiers (`READ_ONLY` is the bottom of the
hierarchy and the fold's identity). -/
def signalMax (l : List RiskTier) : RiskTier := l.foldr riskMax .READ_ONLY

theorem riskMax_READ_ONLY (a : RiskTier) : riskMax .READ_ONLY a = a := by
  cases a <;> rfl

/-- `signalMax` is invariant under permutation: the fold is over a
commutative, associative operation. -/
theorem signalMax_perm {l l' : List RiskTier} (h : l.Perm l') :
    signalMax l = signalMax l' := by
  induction h with
  | nil => rfl
  | cons x _ ih => simp only [signalMax, List.foldr] at ih ⊢; rw [ih]
  | swap x y t =>
      simp only [signalMax, List.foldr]
      rw [← riskMax_assoc, ← riskMax_assoc, riskMax_comm y x]
  | trans _ _ ih1 ih2 => exact ih1.trans ih2

/-- `_analyze_arguments` in terms of the three signals. -/
theorem analyze_arguments_eq (env : SecEnv) (tool : ToolSpec) (kwargs : Kwargs) :
    analyze_arguments env tool kwargs =
      (if bashSignal env tool kwargs then some .DESTRUCTIVE
       else if fileSignal env tool kwargs then some .EXECUTE
       else if pythonSignal tool then some .EXECUTE
       else none) := by
  simp only [analyze_arguments, bashSignal, fileSignal, pythonSignal]

/-- C2.  For every environment, tool and argument mapping, `assess_risk`
returns exactly the maximum of the tool's declared static tier and the
tiers of the matched argument signals — in particular it is never below the
static tier — and the signal maximum is independent of the order in which
the signals are combined (invariant under any permutation of the matched
signal list). -/
theorem C2_assess_risk_is_max (env : SecEnv) (tool : ToolSpec) (kwargs : Kwargs) :
    assess_risk env tool kwargs =
        riskMax tool.risk_tier (signalMax (matchedSignalTiers env tool kwargs))
      ∧ riskIndex tool.risk_tier ≤ riskIndex (assess_risk env tool kwargs)
      ∧ (∀ l' : List RiskTier, l'.Perm (matchedSignalTiers env tool kwargs) →
          assess_risk env tool kwargs = riskMax tool.risk_tier (signalMax l')) := by
  have hmain : assess_risk env tool kwargs =
      riskMax tool.risk_tier (signalMax (matchedSignalTiers env tool kwargs)) := by
    unfold assess_risk matchedSignalTiers
    rw [analyze_arguments_eq]
    cases hb : bashSignal env tool kwargs <;>
      cases hf : fileSignal env tool kwargs <;>
      cases hp : pythonSignal tool <;>
      simp only [if_true, if_false, Bool.false_eq_true] <;>
      cases tool.risk_tier <;> rfl
  refine ⟨hmain, ?_, ?_⟩
  · rw [hmain]
    cases tool.risk_tier <;>
      cases signalMax (matchedSignalTiers env tool kwargs) <;> decide
  · intro l' hperm
    rw [hmain, signalMax_perm hperm]

/-- Witness for C2: a tool matching both the bash and the file signal; the
permuted signal list gives the same assessment, and the result (DESTRUCTIVE)
is not below the static tier (WRITE). -/
theorem C2_assess_risk_is_max_witness :
    (assess_risk ⟨fun _ => true, fun _ => true⟩
        ⟨"bash_file", "BashFileTool", .WRITE,
          ⟨fun k => .ok k, fun _ => .ok ⟨"", [], true, none⟩⟩⟩
        [("command", "rm -rf /"), ("path", "/etc/passwd")] =
      riskMax .WRITE (signalMax [.EXECUTE, .DESTRUCTIVE])) ∧
    riskIndex .WRITE ≤ riskIndex (assess_risk ⟨fun _ => true, fun _ => true⟩
        ⟨"bash_file", "BashFileTool", .WRITE,
          ⟨fun k => .ok k, fun _ => .ok ⟨"", [], true, none⟩⟩⟩
        [("command", "rm -rf /"), ("path", "/etc/passwd")]) := by
  constructor
  · exact (C2_assess_risk_is_max ⟨fun _ => true, fun _ => true⟩
      ⟨"bash_file", "BashFileTool", .WRITE,
        ⟨fun k => .ok k, fun _ => .ok ⟨"", [], true, none⟩⟩⟩
      [("command", "rm -rf /"), ("path", "/etc/passwd")]).2.2
      [.EXECUTE, .DESTRUCTIVE] (by decide)
  · exact (C2_assess_risk_is_max ⟨fun _ => true, fun _ => true⟩
      ⟨"bash_file", "BashFileTool", .WRITE,
        ⟨fun k => .ok k, fun _ => .ok ⟨"", [], true, none⟩⟩⟩
      [("command", "rm -rf /"), ("path", "/etc/passwd")]).2.1

/-! ## C8 — registry identity and duplicate registration -/

theorem lookup_append_of_none {τ : Type} {tools : List (String × τ)} {k : String}
    (h : tools.lookup k = none) (l : List (String × τ)) :
    (tools ++ l).lookup k = l.lookup k := by
  induction tools with
  | nil => rfl
  | cons hd tl ih =>
      rcases hd with ⟨a, b⟩
      by_cases hka : k = a
      · subst hka
        simp [List.lookup] at h
      · have hbeq : (k == a) = false := by simp [hka]
        simp only [List.cons_append, List.lookup, hbeq] at h ⊢
        exact ih h

/-- C8.  Registering a fresh tool succeeds and `get` then returns exactly
the registered instance; a second registration under the same name fails
with the duplicate-tool `ToolExecutionError` and leaves the registry — and
hence the originally registered instance — unchanged. -/
theorem C8_registry_identity {τ : Type} (name : τ → String)
    (tools : List (String × τ)) (t t' : τ)
    (hfree : tools.lookup (name t) = none) (hsame : name t' = name t) :
    (registryRegister name tools t).1 = .ok () ∧
    registryGet (registryRegister name tools t).2 (name t) = .ok t ∧
    (registryRegister name (registryRegister name tools t).2 t').1 =
      .error (.toolExecutionError ("Tool '" ++ name t' ++ "' is already registered")) ∧
    (registryRegister name (registryRegister name tools t).2 t').2 =
      (registryRegister name tools t).2 ∧
    registryGet (registryRegister name (registryRegister name tools t).2 t').2 (name t) =
      .ok t := by
  have hlook : (tools ++ [(name t, t)]).lookup (name t) = some t := by
    rw [lookup_append_of_none hfree]
    simp [List.lookup]
  have hstep1 : registryRegister name tools t = (.ok (), tools ++ [(name t, t)]) := by
    simp [registryRegister, hfree]
  have hget : registryGet (tools ++ [(name t, t)]) (name t) = .ok t := by
    simp [registryGet, hlook]
  have hdup : (tools ++ [(name t, t)]).lookup (name t') = some t := by
    rw [hsame]; exact hlook
  refine ⟨by rw [hstep1], by rw [hstep1]; exact hget, ?_, ?_, ?_⟩
  · rw [hstep1]
    simp [registryRegister, hdup]
  · rw [hstep1]
    simp [registryRegister, hdup]
  · rw [hstep1]
    simp only [registryRegister, hdup, Option.isSome_some, if_true]
    exact hget

/-- Witness for C8, at a concrete two-instance registry: the second
instance shares the name but is a distinct tool. -/
theorem C8_registry_identity_witness :
    ([] : List (String × ExecTool)).lookup "file_reader" = none ∧
    (registryRegister ExecTool.name
        (registryRegister ExecTool.name []
          ⟨"file_reader", "reads files", .READ_ONLY, "schema"⟩).2
        ⟨"file_reader", "impostor", .WRITE, "schema2"⟩).1 =
      .error (.toolExecutionError "Tool 'file_reader' is already registered") := by
  refine ⟨rfl, ?_⟩
  exact (C8_registry_identity ExecTool.name []
    ⟨"file_reader", "reads files", .READ_ONLY, "schema"⟩
    ⟨"file_reader", "impostor", .WRITE, "schema2"⟩ rfl rfl).2.2.1

/-! ## C5 — routing with everything excluded -/

/-- C5.  Whenever every registered agent is excluded — including the case of
an empty registry — routing fails with the same error kind
(`AgentExecutionError`, the realization of the spec's "NoAgentsAvailable"),
the two cases being distinguished only in the message text. -/
theorem C5_all_excluded_no_agents (cb : Option RouteCb)
    (agents : List (String × AgentDesc)) (prompt : String) (conv : List Msg)
    (excluded : List String) (hsub : ∀ na ∈ agents, na.1 ∈ excluded) :
    route_task cb agents prompt conv excluded =
      .error (.agentExecutionError
        (if agents.isEmpty then
          "Failed to route task: No specialist agents registered with dispatcher"
         else
          "Failed to route task: No available agents after excluding: " ++
            pyReprStrList excluded)) := by
  cases hA : agents.isEmpty
  case true =>
    simp only [route_task, hA, if_true]
    rfl
  case false =>
    obtain ⟨na, hna⟩ := List.isEmpty_eq_false_iff_exists_mem.mp hA
    have hexne : excluded.isEmpty = false := by
      cases hex : excluded with
      | nil => exact absurd (hsub na hna) (by simp [hex])
      | cons a l => rfl
    have hfil : availableAgents agents excluded = [] := by
      unfold availableAgents
      rw [List.filter_eq_nil_iff]
      intro nb hnb
      simp [hexne, hsub nb hnb]
    simp only [route_task, hA, Bool.false_eq_true, if_false, hfil,
      List.isEmpty_nil, if_true, pyStrExc]
    rfl

/-- Witness for C5: two registered agents, both excluded. -/
theorem C5_all_excluded_no_agents_witness :
    route_task none
        [("GeneralAgent", ⟨"general", [], []⟩), ("SWEAgent", ⟨"swe", [], []⟩)]
        "do something" [] ["SWEAgent", "GeneralAgent"] =
      .error (.agentExecutionError
        "Failed to route task: No available agents after excluding: ['SWEAgent', 'GeneralAgent']") := by
  have h := C5_all_excluded_no_agents none
    [("GeneralAgent", ⟨"general", [], []⟩), ("SWEAgent", ⟨"swe", [], []⟩)]
    "do something" [] ["SWEAgent", "GeneralAgent"]
    (by intro na hna; fin_cases hna <;> simp)
  simpa using h

/-! ## C4 — fallback routing -/

/-- Counterexample to C4 as stated: the callback's cleaned reply `"Bogus"`
is not an available agent, the prompt carries the code keywords (so the
fixed keyword heuristic would pick the registered `SWEAgent`), yet the
Dispatcher selects `GeneralAgent` — the first available agent — without
consulting the heuristic. -/
theorem C4_counterexample :
    route_task (some (fun _ => .ok "Bogus"))
        [("GeneralAgent", ⟨"general", [], []⟩), ("SWEAgent", ⟨"swe", [], []⟩)]
        "fix this code bug" [] [] = .ok "GeneralAgent" ∧
    heuristic_routing
        [("GeneralAgent", ⟨"general", [], []⟩), ("SWEAgent", ⟨"swe", [], []⟩)]
        "fix this code bug" = "SWEAgent" ∧
    "GeneralAgent" ≠ "SWEAgent" := by
  refine ⟨?_, ?_, by decide⟩ <;> rfl

/-- C4 (amended).  With agents registered and at least one available:
(a) with no routing callback, the Dispatcher runs the fixed keyword
heuristic over the *registered* agents and returns its choice when that
choice is available, else the first available agent in registration order;
(b) when the callback replies and its cleaned reply is not the name of an
available agent, the Dispatcher returns the first available agent in
registration order directly — the keyword heuristic is not consulted. -/
theorem C4_fallback_routing_amended :
    (∀ (agents : List (String × AgentDesc)) (prompt : String) (conv : List Msg)
        (excluded : List String),
      agents.isEmpty = false →
      (availableAgents agents excluded).isEmpty = false →
      route_task none agents prompt conv excluded =
        .ok (if ((availableAgents agents excluded).lookup
                  (heuristic_routing agents prompt)).isSome
             then heuristic_routing agents prompt
             else ((availableAgents agents excluded).map Prod.fst).headD "")) ∧
    (∀ (agents : List (String × AgentDesc)) (prompt : String) (conv : List Msg)
        (excluded : List String) (cb : RouteCb) (reply : String),
      agents.isEmpty = false →
      (availableAgents agents excluded).isEmpty = false →
      cb (routingPrompt
            (build_routing_context (availableAgents agents excluded) conv excluded)
            prompt) = .ok reply →
      ((availableAgents agents excluded).lookup (cleanRoutingReply reply)).isSome
        = false →
      route_task (some cb) agents prompt conv excluded =
        .ok (((availableAgents agents excluded).map Prod.fst).headD "")) := by
  constructor
  · intro agents prompt conv excluded h1 h2
    simp only [route_task, h1, Bool.false_eq_true, if_false, h2,
      make_routing_decision]
    cases hcase : (List.lookup (heuristic_routing agents prompt)
        (availableAgents agents excluded)).isSome <;>
      simp [hcase]
  · intro agents prompt conv excluded cb reply h1 h2 hr hna
    simp only [route_task, h1, Bool.false_eq_true, if_false, h2,
      make_routing_decision, hr, hna]

/-- Witness for C4's amended statement, discharging both parts on concrete
registries: without a callback the heuristic's unavailable choice falls back
to the first available agent; with a callback, a bogus reply selects the
first available agent. -/
theorem C4_fallback_routing_amended_witness :
    route_task none
        [("GeneralAgent", ⟨"general", [], []⟩), ("SWEAgent", ⟨"swe", [], []⟩)]
        "fix this code bug" [] ["SWEAgent"] = .ok "GeneralAgent" ∧
    route_task (some (fun _ => .ok "Bogus"))
        [("GeneralAgent", ⟨"general", [], []⟩), ("SWEAgent", ⟨"swe", [], []⟩)]
        "fix this code bug" [] [] = .ok "GeneralAgent" := by
  constructor
  · have h := C4_fallback_routing_amended.1
      [("GeneralAgent", ⟨"general", [], []⟩), ("SWEAgent", ⟨"swe", [], []⟩)]
      "fix this code bug" [] ["SWEAgent"] rfl rfl
    simpa using h
  · have h := C4_fallback_routing_amended.2
      [("GeneralAgent", ⟨"general", [], []⟩), ("SWEAgent", ⟨"swe", [], []⟩)]
      "fix this code bug" [] [] (fun _ => .ok "Bogus") "Bogus" rfl rfl rfl rfl
    simpa using h

/-! ## C3 — retry exhaustion with an always-rejecting agent -/

/-- C3.  Against a step (dispatcher routing plus agent run) that rejects the
task at every attempt, the retry loop with `max_retries = 3` performs
exactly 3 attempts along the documented prompt chain, and the final result
is the aggregated failure: `success = false`, metadata listing exactly the
three rejected agent names in order and the last rejection's message, and
an error text naming the last rejection. -/
theorem C3_retry_three_rejections (step : RetryStep) (prompt : String)
    (hrej : ∀ i p, ∃ n r, step i p = .ok (n, r) ∧ r.success = false ∧
      r.error_code = some .TASK_REJECTED_AS_INAPPROPRIATE) :
    ∃ n0 r0 n1 r1 n2 r2,
      step 0 prompt = .ok (n0, r0) ∧
      step 1 (prompt ++ rejectionContextNote n0) = .ok (n1, r1) ∧
      step 2 (prompt ++ rejectionContextNote n0 ++ rejectionContextNote n1) =
        .ok (n2, r2) ∧
      execute_with_retry step prompt 3 = (rejectionFinal 3 [n0, n1, n2] r2, 3) ∧
      (execute_with_retry step prompt 3).1.success = false ∧
      (execute_with_retry step prompt 3).1.metadata.lookup "rejected_agents" =
        some (.ls [n0, n1, n2]) ∧
      (execute_with_retry step prompt 3).1.metadata.lookup "last_error" =
        some (.os r2.error) ∧
      (execute_with_retry step prompt 3).1.error =
        some ("Unable to complete task after 3 attempts. Last rejection: " ++
          pyStrOpt r2.error) := by
  obtain ⟨n0, r0, h0, hs0, hc0⟩ := hrej 0 prompt
  obtain ⟨n1, r1, h1, hs1, hc1⟩ := hrej 1 (prompt ++ rejectionContextNote n0)
  obtain ⟨n2, r2, h2, hs2, hc2⟩ :=
    hrej 2 (prompt ++ rejectionContextNote n0 ++ rejectionContextNote n1)
  have hrun : execute_with_retry step prompt 3 = (rejectionFinal 3 [n0, n1, n2] r2, 3) := by
    unfold execute_with_retry
    rw [show (3 : Nat) = 2 + 1 from rfl]
    rw [retryGo]
    rw [h0]
    simp only [hs0, hc0, Bool.false_eq_true, not_false_eq_true, true_and, and_self,
      if_true, gt_iff_lt, Nat.zero_lt_succ, if_pos]
    rw [show (2 : Nat) = 1 + 1 from rfl]
    rw [retryGo]
    rw [List.nil_append, h1]
    simp only [hs1, hc1, Bool.false_eq_true, not_false_eq_true, true_and, and_self,
      if_true, gt_iff_lt, Nat.zero_lt_succ, if_pos]
    rw [show (1 : Nat) = 0 + 1 from rfl]
    rw [retryGo]
    rw [h2]
    simp only [hs2, hc2, Bool.false_eq_true, not_false_eq_true, true_and, and_self,
      if_true, gt_iff_lt, Nat.lt_irrefl, if_neg, List.cons_append, List.nil_append]
  refine ⟨n0, r0, n1, r1, n2, r2, h0, h1, h2, hrun, ?_, ?_, ?_, ?_⟩ <;>
    rw [hrun] <;> rfl

/-- Witness for C3: a concrete always-rejecting step whose agent name varies
with the attempt index. -/
theorem C3_retry_three_rejections_witness :
    ∃ n0 r0 n1 r1 n2 r2,
      (fun (i : Nat) (_ : String) =>
        (.ok ("agent" ++ toString i,
          reject_task ("agent" ++ toString i) "out of scope") :
          Except PyExc (String × TaskOutputM))) 0 "write a report" = .ok (n0, r0) ∧
      (fun (i : Nat) (_ : String) =>
        (.ok ("agent" ++ toString i,
          reject_task ("agent" ++ toString i) "out of scope") :
          Except PyExc (String × TaskOutputM))) 1
        ("write a report" ++ rejectionContextNote n0) = .ok (n1, r1) ∧
      (fun (i : Nat) (_ : String) =>
        (.ok ("agent" ++ toString i,
          reject_task ("agent" ++ toString i) "out of scope") :
          Except PyExc (String × TaskOutputM))) 2
        ("write a report" ++ rejectionContextNote n0 ++ rejectionContextNote n1) =
        .ok (n2, r2) ∧
      execute_with_retry
        (fun i _ => .ok ("agent" ++ toString i,
          reject_task ("agent" ++ toString i) "out of scope"))
        "write a report" 3 = (rejectionFinal 3 [n0, n1, n2] r2, 3) ∧
      (execute_with_retry
        (fun i _ => .ok ("agent" ++ toString i,
          reject_task ("agent" ++ toString i) "out of scope"))
        "write a report" 3).1.success = false ∧
      (execute_with_retry
        (fun i _ => .ok ("agent" ++ toString i,
          reject_task ("agent" ++ toString i) "out of scope"))
        "write a report" 3).1.metadata.lookup "rejected_agents" =
        some (.ls [n0, n1, n2]) ∧
      (execute_with_retry
        (fun i _ => .ok ("agent" ++ toString i,
          reject_task ("agent" ++ toString i) "out of scope"))
        "write a report" 3).1.metadata.lookup "last_error" = some (.os r2.error) ∧
      (execute_with_retry
        (fun i _ => .ok ("agent" ++ toString i,
          reject_task ("agent" ++ toString i) "out of scope"))
        "write a report" 3).1.error =
        some ("Unable to complete task after 3 attempts. Last rejection: " ++
          pyStrOpt r2.error) :=
  C3_retry_three_rejections
    (fun i _ => .ok ("agent" ++ toString i,
      reject_task ("agent" ++ toString i) "out of scope"))
    "write a report"
    (fun i _ => ⟨"agent" ++ toString i,
      reject_task ("agent" ++ toString i) "out of scope", rfl, rfl, rfl⟩)

/-! ## C1 — fail-closed default, and what the denial actually raises -/

/-- Dropping the oldest entry of a bounded append still ends in the new
entry. -/
theorem append_single_bounded {α : Type} (l : List α) (r : α) :
    ∃ pre, (if (l ++ [r]).length > 100 then (l ++ [r]).drop 1 else l ++ [r]) =
      pre ++ [r] := by
  by_cases h : (l ++ [r]).length > 100
  · rw [if_pos h]
    cases l with
    | nil => simp at h
    | cons a rest => exact ⟨rest, by simp⟩
  · rw [if_neg h]
    exact ⟨l, rfl⟩

/-- A recorded denial always sits at the end of the (bounded) denial list. -/
theorem record_denial_append (st : GatewayState) (now : Nat) (tool : ToolSpec)
    (tier : RiskTier) (reason : String) (kwargs : Kwargs) :
    ∃ pre, (record_denial st now tool tier reason kwargs).denied_operations =
      pre ++ [⟨now, tool.name, tool.className, riskValue tier, reason, kwargs⟩] := by
  simpa only [record_denial] using append_single_bounded st.denied_operations
    ⟨now, tool.name, tool.className, riskValue tier, reason, kwargs⟩

/-- C1 (the behaviour the code actually has).  With no confirmation callback
configured: READ_ONLY and WRITE calls are authorized unconditionally and
EXECUTE/DESTRUCTIVE calls are denied, appending a denial record whose
reason is "No confirmation callback"; but `execute_tool` on a denied call
raises a `TypeError` — the `SecurityGatewayError` constructor requires a
`risk_tier` argument and rejects the `cause` keyword, so the intended
`SecurityGatewayError` is never constructed, let alone raised. -/
theorem C1_fail_closed_denial_raises_TypeError :
    (∀ (timeout now : Nat) (st : GatewayState) (tool : ToolSpec) (kwargs : Kwargs),
      check_authorization none timeout now st tool .READ_ONLY kwargs = (true, st) ∧
      check_authorization none timeout now st tool .WRITE kwargs = (true, st) ∧
      (check_authorization none timeout now st tool .EXECUTE kwargs).1 = false ∧
      (check_authorization none timeout now st tool .DESTRUCTIVE kwargs).1 = false ∧
      (∃ pre, (check_authorization none timeout now st tool .EXECUTE kwargs).2.denied_operations
          = pre ++ [⟨now, tool.name, tool.className, riskValue .EXECUTE,
              "No confirmation callback", kwargs⟩]) ∧
      (∃ pre, (check_authorization none timeout now st tool .DESTRUCTIVE kwargs).2.denied_operations
          = pre ++ [⟨now, tool.name, tool.className, riskValue .DESTRUCTIVE,
              "No confirmation callback", kwargs⟩])) ∧
    (∀ (env : SecEnv) (timeout now : Nat) (st : GatewayState) (tool : ToolSpec)
        (kwargs : Kwargs),
      (execute_tool env none timeout now st tool kwargs).1 =
        (match assess_risk env tool kwargs with
         | .READ_ONLY => .ok (toolRun tool.impl kwargs)
         | .WRITE => .ok (toolRun tool.impl kwargs)
         | .EXECUTE => .error (.typeError
            "SecurityGatewayError.__init__() got an unexpected keyword argument 'cause'")
         | .DESTRUCTIVE => .error (.typeError
            "SecurityGatewayError.__init__() got an unexpected keyword argument 'cause'")) ∧
      ∀ m : String, (execute_tool env none timeout now st tool kwargs).1 ≠
        .error (.securityGatewayError m)) := by
  constructor
  · intro timeout now st tool kwargs
    refine ⟨rfl, rfl, rfl, rfl, ?_, ?_⟩
    · exact record_denial_append st now tool .EXECUTE "No confirmation callback" kwargs
    · exact record_denial_append st now tool .DESTRUCTIVE "No confirmation callback" kwargs
  · intro env timeout now st tool kwargs
    constructor
    · unfold execute_tool
      cases h : assess_risk env tool kwargs <;> rfl
    · intro m
      unfold execute_tool
      cases h : assess_risk env tool kwargs <;> simp [check_authorization,
        request_user_confirmation, mkSecurityGatewayError]

/-! ## C6 — the reasoning loop is bounded and exhausts its budget gracefully -/

/-- The loop body never reports more iterations than the remaining budget
allows. -/
theorem reasoningLoopGo_iterations_le (llm : Option (String → String))
    (reg : List (String × ExecTool)) (gw : GatewayFn)
    (max_iterations : Nat) (initial_prompt : String) :
    ∀ (remaining done : Nat) (prompt : String) (arts : List Nat),
      (reasoningLoopGo llm reg gw max_iterations initial_prompt
        remaining done prompt arts).iterations ≤ done + remaining := by
  intro remaining
  induction remaining with
  | zero => intro done prompt arts; simp [reasoningLoopGo]
  | succ r ih =>
      intro done prompt arts
      simp only [reasoningLoopGo]
      cases llm with
      | none => simp
      | some f =>
          cases hx : extract_tool_call (f prompt) with
          | none => simp [hx]
          | some tc =>
              simp only [hx]
              calc (reasoningLoopGo (some f) reg gw max_iterations initial_prompt
                      r (done + 1) _ _).iterations
                  ≤ (done + 1) + r := ih (done + 1) _ _
                _ = done + (r + 1) := by omega

/-- When every response carries a tool call, the loop spends its whole
budget and ends in the partial-completion message. -/
theorem reasoningLoopGo_exhausts (f : String → String)
    (reg : List (String × ExecTool)) (gw : GatewayFn)
    (max_iterations : Nat) (initial_prompt : String)
    (hcall : ∀ s, (extract_tool_call (f s)).isSome) :
    ∀ (remaining done : Nat) (prompt : String) (arts : List Nat),
      (reasoningLoopGo (some f) reg gw max_iterations initial_prompt
          remaining done prompt arts).output =
        partialCompletionMessage max_iterations ∧
      (reasoningLoopGo (some f) reg gw max_iterations initial_prompt
          remaining done prompt arts).iterations = done + remaining := by
  intro remaining
  induction remaining with
  | zero => intro done prompt arts; simp [reasoningLoopGo]
  | succ r ih =>
      intro done prompt arts
      simp only [reasoningLoopGo]
      cases hx : extract_tool_call (f prompt) with
      | none =>
          have hs := hcall prompt
          rw [hx] at hs
          simp at hs
      | some tc =>
          simp only [hx]
          refine ⟨(ih (done + 1) _ _).1, ?_⟩
          rw [(ih (done + 1) _ _).2]
          omega

/-- C6.  (a) For every configuration, `invoke` reports at most
`max_iterations` iterations — the reasoning loop always terminates within
its budget (default `defaultMaxIterations = 10`).  (b) If every
reasoning-engine response contains a tool call (for instance one naming a
non-existent tool), the loop runs exactly `max_iterations` iterations and
`invoke` returns the partial-completion message naming the limit, with
`success = true`. -/
theorem C6_loop_budget (reg : List (String × ExecTool)) (gw : GatewayFn)
    (max_iterations : Nat) (input conversation : String)
    (tools : Option (List String)) :
    (∀ llm : Option (String → String),
      (invoke reg gw llm max_iterations input conversation tools).iterations ≤
        max_iterations) ∧
    (∀ f : String → String, input ≠ "" → (∀ s, (extract_tool_call (f s)).isSome) →
      (invoke reg gw (some f) max_iterations input conversation tools).output =
          partialCompletionMessage max_iterations ∧
      (invoke reg gw (some f) max_iterations input conversation tools).iterations =
          max_iterations ∧
      (invoke reg gw (some f) max_iterations input conversation tools).success =
          true) := by
  constructor
  · intro llm
    unfold invoke
    by_cases h : input = ""
    · simp [h]
    · rw [if_neg h]
      simpa using reasoningLoopGo_iterations_le llm reg gw max_iterations _
        max_iterations 0 _ []
  · intro f hne hcall
    have h := reasoningLoopGo_exhausts f reg gw max_iterations
      (build_system_prompt (build_tools_context reg tools) conversation ++
        "\n\nUser Request: " ++ input) hcall max_iterations 0
      (build_system_prompt (build_tools_context reg tools) conversation ++
        "\n\nUser Request: " ++ input) []
    simp only [invoke, execute_reasoning_loop, if_neg hne]
    refine ⟨h.1, ?_, trivial⟩
    rw [h.2]
    omega

/-- Witness for C6: ten iterations of a response that calls a tool absent
from the (empty) registry, ending in the partial-completion message with
`success = true`. -/
theorem C6_loop_budget_witness :
    (invoke [] (fun _ _ => .ok ⟨"", [], true, none⟩)
        (some (fun _ => "TOOL_CALL: \x7b\"tool_name\": \"missing_tool\"\x7d"))
        defaultMaxIterations "do the task" "" none).output =
      "Task partially completed. Reached maximum iteration limit (10)." ∧
    (invoke [] (fun _ _ => .ok ⟨"", [], true, none⟩)
        (some (fun _ => "TOOL_CALL: \x7b\"tool_name\": \"missing_tool\"\x7d"))
        defaultMaxIterations "do the task" "" none).iterations = 10 ∧
    (invoke [] (fun _ _ => .ok ⟨"", [], true, none⟩)
        (some (fun _ => "TOOL_CALL: \x7b\"tool_name\": \"missing_tool\"\x7d"))
        defaultMaxIterations "do the task" "" none).success = true := by
  have h := (C6_loop_budget [] (fun _ _ => .ok ⟨"", [], true, none⟩)
      defaultMaxIterations "do the task" "" none).2
    (fun _ => "TOOL_CALL: \x7b\"tool_name\": \"missing_tool\"\x7d")
    (by decide) (fun s => rfl)
  exact ⟨h.1, h.2.1, h.2.2⟩

/-! ## C7 — extraction is pure and lenient; no call means final answer -/

/-- C7.  Tool-call extraction is a function of the response text alone, so
repeated parses agree; a response with no marker match, a capture whose
re-wrapped payload is not valid JSON, or a parsed payload without a
`tool_name` field all yield no tool call; and the loop treats a
no-tool-call response as the final answer — it returns the response text
with the iteration count of a normally completed step, raising nothing and
consuming no further iterations. -/
theorem C7_extraction_pure_and_lenient :
    (∀ s t : String, s = t → extract_tool_call s = extract_tool_call t) ∧
    (∀ s : String, toolCallSearch s.data = none → extract_tool_call s = none) ∧
    (∀ (s : String) (g : List Char), toolCallSearch s.data = some g →
      jsonLoads (String.mk ('\x7b' :: g ++ ['\x7d'])) = none →
      extract_tool_call s = none) ∧
    (∀ (s : String) (g : List Char) (members : List (String × Json)),
      toolCallSearch s.data = some g →
      jsonLoads (String.mk ('\x7b' :: g ++ ['\x7d'])) = some (.jobj members) →
      jsonObjLookup members "tool_name" = none →
      extract_tool_call s = none) ∧
    (∀ (f : String → String) (reg : List (String × ExecTool)) (gw : GatewayFn)
        (max_iterations : Nat) (initial_prompt : String)
        (remaining done : Nat) (prompt : String) (arts : List Nat),
      extract_tool_call (f prompt) = none →
      reasoningLoopGo (some f) reg gw max_iterations initial_prompt
          (remaining + 1) done prompt arts =
        ⟨f prompt, done + 1, arts⟩) := by
  refine ⟨fun s t h => by rw [h], ?_, ?_, ?_, ?_⟩
  · intro s hs
    unfold extract_tool_call
    rw [hs]
  · intro s g hs hj
    unfold extract_tool_call
    rw [hs]
    simp only [hj]
  · intro s g members hs hj hk
    unfold extract_tool_call
    rw [hs]
    simp only [hj, hk]
  · intro f reg gw max_iterations initial_prompt remaining done prompt arts hx
    simp only [reasoningLoopGo, hx]

/-- Witness for C7, discharging each hypothesis on a concrete response: a
marker-free text, a marker with malformed JSON, a marker whose payload
lacks `tool_name`, and the loop returning such a response as the final
answer. -/
theorem C7_extraction_pure_and_lenient_witness :
    extract_tool_call "The capital of France is Paris." = none ∧
    extract_tool_call "TOOL_CALL: \x7bnot valid json\x7d" = none ∧
    extract_tool_call "TOOL_CALL: \x7b\"arguments\": 3\x7d" = none ∧
    reasoningLoopGo (some (fun _ => "The capital of France is Paris."))
        [] (fun _ _ => .ok ⟨"", [], true, none⟩) 10 "sys" (9 + 1) 0 "sys" [] =
      ⟨"The capital of France is Paris.", 0 + 1, []⟩ := by
  refine ⟨?_, ?_, ?_, ?_⟩
  · exact C7_extraction_pure_and_lenient.2.1 "The capital of France is Paris." rfl
  · exact C7_extraction_pure_and_lenient.2.2.1 "TOOL_CALL: \x7bnot valid json\x7d"
      "not valid json".data rfl rfl
  · exact C7_extraction_pure_and_lenient.2.2.2.1 "TOOL_CALL: \x7b\"arguments\": 3\x7d"
      "\"arguments\": 3".data [("arguments", .jnum "3")] rfl rfl rfl
  · exact C7_extraction_pure_and_lenient.2.2.2.2
      (fun _ => "The capital of France is Paris.") []
      (fun _ _ => .ok ⟨"", [], true, none⟩) 10 "sys" 9 0 "sys" []
      (C7_extraction_pure_and_lenient.2.1 "The capital of France is Paris." rfl)

/-! ## C9 — tool-level failures are captured, never thrown -/

/-- C9.  (a) `Tool.run` converts any fault raised by argument validation or
by the tool's own `_run` into a failed `ToolOutput` carrying the fault's
message — `run` returns normally.  (b) When the resolved tool's gateway
execution raises, `_execute_tool_call` returns a failed result dictionary
with the documented error texts instead of propagating the exception.
(c) The reasoning loop folds whatever result the call produced into the
next iteration's prompt and keeps iterating: a failing tool call never
aborts the task. -/
theorem C9_tool_failures_captured :
    (∀ (α : Type) (impl : ToolImpl α) (kwargs : α) (e : String),
      impl.validateArgs kwargs >>= impl.runImpl = .error e →
      toolRun impl kwargs =
        ⟨"Tool execution failed: " ++ e, [], false, some e⟩) ∧
    (∀ (reg : List (String × ExecTool)) (gw : GatewayFn) (tc : ToolCall)
        (s : String) (tool : ExecTool) (e : PyExc),
      tc.tool_name = .jstr s →
      reg.lookup s = some tool →
      gw tool tc.arguments = .error e →
      execute_tool_call reg gw tc =
        { success := false
          error := some ("Tool execution failed: " ++ pyStrExc e)
          text_summary := "Error executing " ++ s ++ ": " ++ pyStrExc e }) ∧
    (∀ (f : String → String) (reg : List (String × ExecTool)) (gw : GatewayFn)
        (max_iterations : Nat) (initial_prompt : String)
        (remaining done : Nat) (prompt : String) (arts : List Nat) (tc : ToolCall),
      extract_tool_call (f prompt) = some tc →
      reasoningLoopGo (some f) reg gw max_iterations initial_prompt
          (remaining + 1) done prompt arts =
        reasoningLoopGo (some f) reg gw max_iterations initial_prompt
          remaining (done + 1)
          (build_followup_prompt initial_prompt (f prompt) tc
            (execute_tool_call reg gw tc))
          (arts ++ (execute_tool_call reg gw tc).artifacts)) := by
  refine ⟨?_, ?_, ?_⟩
  · intro α impl kwargs e he
    unfold toolRun
    rw [he]
  · intro reg gw tc s tool e hname hreg hgw
    unfold execute_tool_call
    rw [hname]
    have hhas : registryHasTool reg s = true := by
      simp [registryHasTool, hreg]
    have hget : registryGet reg s = .ok tool := by
      simp [registryGet, hreg]
    simp only [hhas, Bool.not_true, Bool.false_eq_true, if_false, hget, hgw,
      pyStrJson]
  · intro f reg gw max_iterations initial_prompt remaining done prompt arts tc hx
    simp only [reasoningLoopGo, hx]

/-- Witness for C9: a tool whose `_run` raises; its registered gateway
execution raises too; the captured failure feeds the next loop iteration. -/
theorem C9_tool_failures_captured_witness :
    toolRun ⟨fun k => .ok k, fun _ => .error "disk on fire"⟩ ([] : Kwargs) =
      ⟨"Tool execution failed: disk on fire", [], false, some "disk on fire"⟩ ∧
    execute_tool_call [("burner", ⟨"burner", "burns", .WRITE, "sch"⟩)]
        (fun _ _ => .error (.other "disk on fire"))
        ⟨.jstr "burner", .jobj [], "raw"⟩ =
      { success := false
        error := some "Tool execution failed: disk on fire"
        text_summary := "Error executing burner: disk on fire" } ∧
    reasoningLoopGo
        (some (fun _ => "TOOL_CALL: \x7b\"tool_name\": \"burner\"\x7d"))
        [("burner", ⟨"burner", "burns", .WRITE, "sch"⟩)]
        (fun _ _ => .error (.other "disk on fire")) 10 "sys" (4 + 1) 0 "sys" [] =
      reasoningLoopGo
        (some (fun _ => "TOOL_CALL: \x7b\"tool_name\": \"burner\"\x7d"))
        [("burner", ⟨"burner", "burns", .WRITE, "sch"⟩)]
        (fun _ _ => .error (.other "disk on fire")) 10 "sys" 4 (0 + 1)
        (build_followup_prompt "sys" "TOOL_CALL: \x7b\"tool_name\": \"burner\"\x7d"
          ⟨.jstr "burner", .jobj [],
            "\x7b\"tool_name\": \"burner\"\x7d"⟩
          (execute_tool_call [("burner", ⟨"burner", "burns", .WRITE, "sch"⟩)]
            (fun _ _ => .error (.other "disk on fire"))
            ⟨.jstr "burner", .jobj [],
              "\x7b\"tool_name\": \"burner\"\x7d"⟩))
        ([] ++ (execute_tool_call [("burner", ⟨"burner", "burns", .WRITE, "sch"⟩)]
            (fun _ _ => .error (.other "disk on fire"))
            ⟨.jstr "burner", .jobj [],
              "\x7b\"tool_name\": \"burner\"\x7d"⟩).artifacts) := by
  refine ⟨?_, ?_, ?_⟩
  · exact C9_tool_failures_captured.1 Kwargs
      ⟨fun k => .ok k, fun _ => .error "disk on fire"⟩ [] "disk on fire" rfl
  · exact C9_tool_failures_captured.2.1
      [("burner", ⟨"burner", "burns", .WRITE, "sch"⟩)]
      (fun _ _ => .error (.other "disk on fire"))
      ⟨.jstr "burner", .jobj [], "raw"⟩ "burner"
      ⟨"burner", "burns", .WRITE, "sch"⟩ (.other "disk on fire") rfl rfl rfl
  · exact C9_tool_failures_captured.2.2
      (fun _ => "TOOL_CALL: \x7b\"tool_name\": \"burner\"\x7d")
      [("burner", ⟨"burner", "burns", .WRITE, "sch"⟩)]
      (fun _ _ => .error (.other "disk on fire")) 10 "sys" 4 0 "sys" []
      ⟨.jstr "burner", .jobj [], "\x7b\"tool_name\": \"burner\"\x7d"⟩ rfl

/-! ## C10 — a non-empty `arguments` object defeats extraction

The regex capture `[^\x7d]+` stops at the first closing brace of the
response, so a payload whose `arguments` field is a non-empty object — and
therefore contains a nested closing brace before its own final brace — is
re-wrapped into a truncated, unparseable document.  The theorem quantifies
over the family of conforming payloads
`\x7b"tool_name": "<name>", "arguments": \x7b"<key>": "<value>"\x7d\x7d`
whose three free strings use no brace, quote, backslash or control
characters. -/

/-- A string fit to appear verbatim inside the wire payload: no closing
brace (so the capture boundary is the object's own structure), no quote or
backslash (so the JSON string lexer passes over it unchanged), no control
characters. -/
abbrev wireClean (s : String) : Prop :=
  ∀ c ∈ s.data, c ≠ '\x7d' ∧ c ≠ '"' ∧ c ≠ '\\' ∧ 0x20 ≤ c.toNat

theorem takeWhile_append_of_all {α : Type} (p : α → Bool) (l r : List α)
    (h : ∀ c ∈ l, p c = true) :
    (l ++ r).takeWhile p = l ++ r.takeWhile p := by
  induction l with
  | nil => rfl
  | cons a t ih =>
      rw [List.cons_append, List.takeWhile_cons_of_pos (h a (List.mem_cons_self a t))]
      exact congrArg (a :: ·) (ih fun c hc => h c (List.mem_cons_of_mem a hc))

theorem dropWhile_append_of_all {α : Type} (p : α → Bool) (l r : List α)
    (h : ∀ c ∈ l, p c = true) :
    (l ++ r).dropWhile p = r.dropWhile p := by
  induction l with
  | nil => rfl
  | cons a t ih =>
      rw [List.cons_append, List.dropWhile_cons_of_pos (h a (List.mem_cons_self a t))]
      exact ih fun c hc => h c (List.mem_cons_of_mem a hc)

theorem isPrefixOf_self_append {α : Type} [BEq α] [LawfulBEq α] (l r : List α) :
    l.isPrefixOf (l ++ r) = true := by
  induction l with
  | nil => simp [List.isPrefixOf]
  | cons a t ih => simp [List.isPrefixOf, ih]

/-- The string lexer passes over clean content and stops at the first
unescaped quote. -/
theorem scanStrChars_clean (l : List Char)
    (h : ∀ c ∈ l, c ≠ '"' ∧ c ≠ '\\' ∧ 0x20 ≤ c.toNat) (rest : List Char) :
    scanStrChars (l ++ '"' :: rest) = some (l, rest) := by
  induction l with
  | nil =>
      rw [List.nil_append, scanStrChars.eq_def]
      simp
  | cons a t ih =>
      obtain ⟨hq, hb, hc⟩ := h a (by simp)
      have ht := ih (fun c hmem => h c (by simp [hmem]))
      rw [List.cons_append, scanStrChars.eq_def]
      dsimp only
      rw [if_neg hq, if_neg hb, if_neg (by omega), ht]
      rfl

/-- Parsing a clean string literal value. -/
theorem parseValue_clean_str (f : Nat) (l : List Char)
    (h : ∀ c ∈ l, c ≠ '"' ∧ c ≠ '\\' ∧ 0x20 ≤ c.toNat) (rest : List Char) :
    parseValue (f + 1) ('"' :: (l ++ '"' :: rest)) =
      some (.jstr (String.mk l), rest) := by
  rw [parseValue]
  rw [show List.dropWhile isJsonWs ('"' :: (l ++ '"' :: rest)) =
      '"' :: (l ++ '"' :: rest) from by simp [List.dropWhile_cons, isJsonWs]]
  dsimp only
  rw [if_pos rfl, scanStrChars_clean l h rest]
  rfl

/-- A leading space before a value is skipped without consuming fuel. -/
theorem parseValue_cons_space (f : Nat) (x : List Char) :
    parseValue (f + 1) (' ' :: x) = parseValue (f + 1) x := by
  rw [parseValue, parseValue]
  rw [show List.dropWhile isJsonWs (' ' :: x) = List.dropWhile isJsonWs x from by
    simp [List.dropWhile_cons, isJsonWs]]

/-- Entering a non-empty object body whose first member key opens
immediately. -/
theorem parseValue_obj_quote (f : Nat) (x : List Char) :
    parseValue (f + 1) ('\x7b' :: ('"' :: x)) =
      (parseMembers f ('"' :: x)).map (fun p => (Json.jobj p.1, p.2)) := by
  rw [parseValue]
  rw [show List.dropWhile isJsonWs ('\x7b' :: ('"' :: x)) = '\x7b' :: ('"' :: x) from by
    simp [List.dropWhile_cons, isJsonWs]]
  dsimp only
  rw [if_neg (by decide), if_pos rfl]
  rw [show List.dropWhile isJsonWs ('"' :: x) = '"' :: x from by
    simp [List.dropWhile_cons, isJsonWs]]
  dsimp only
  rw [if_neg (by decide)]

/-- Parsing one object member with a clean key followed directly by a
colon: the continuation is the member's value parse. -/
theorem parseMembers_clean_key (f : Nat) (key : List Char)
    (h : ∀ c ∈ key, c ≠ '"' ∧ c ≠ '\\' ∧ 0x20 ≤ c.toNat) (r1 : List Char) :
    parseMembers (f + 1) ('"' :: (key ++ '"' :: ':' :: r1)) =
      (match parseValue f r1 with
       | none => none
       | some (v, r3) =>
         match r3.dropWhile isJsonWs with
         | [] => none
         | c3 :: r4 =>
           if c3 = ',' then
             (parseMembers f r4).map (fun p => ((String.mk key, v) :: p.1, p.2))
           else if c3 = '\x7d' then some ([(String.mk key, v)], r4)
           else none) := by
  rw [parseMembers]
  rw [show List.dropWhile isJsonWs ('"' :: (key ++ '"' :: ':' :: r1)) =
      '"' :: (key ++ '"' :: ':' :: r1) from by simp [List.dropWhile_cons, isJsonWs]]
  dsimp only
  rw [if_pos rfl, scanStrChars_clean key h (':' :: r1)]
  dsimp only
  rw [show List.dropWhile isJsonWs (':' :: r1) = ':' :: r1 from by
    simp [List.dropWhile_cons, isJsonWs]]
  dsimp only
  rw [if_pos rfl]

/-- A leading space before a member key is skipped without consuming
fuel. -/
theorem parseMembers_cons_space (f : Nat) (x : List Char) :
    parseMembers (f + 1) (' ' :: x) = parseMembers (f + 1) x := by
  rw [parseMembers, parseMembers]
  rw [show List.dropWhile isJsonWs (' ' :: x) = List.dropWhile isJsonWs x from by
    simp [List.dropWhile_cons, isJsonWs]]

/-- The conforming wire payload, as text:
`\x7b"tool_name": "<name>", "arguments": \x7b"<key>": "<value>"\x7d\x7d`. -/
def wirePayload (name key value : String) : String :=
  "\x7b\"tool_name\": \"" ++ name ++ "\", \"arguments\": \x7b\"" ++ key ++
    "\": \"" ++ value ++ "\"\x7d\x7d"

/-- The payload characters after the opening brace, with the characters
after the inner object's closing brace kept as a parameter `r` (the genuine
payload has `r = ['\x7d']`; the regex-truncated document has `r = []`). -/
def wireTail (nm kk vv r : List Char) : List Char :=
  '"' :: ("tool_name".data ++ '"' :: ':' :: ' ' :: '"' ::
    (nm ++ '"' :: ',' :: ' ' :: '"' ::
      ("arguments".data ++ '"' :: ':' :: ' ' :: '\x7b' :: '"' ::
        (kk ++ '"' :: ':' :: ' ' :: '"' ::
          (vv ++ '"' :: '\x7d' :: r)))))

/-- List-level cleanliness, as `wireClean` but over the characters. -/
theorem wireClean_elim {s : String} (h : wireClean s) :
    ∀ c ∈ s.data, c ≠ '"' ∧ c ≠ '\\' ∧ 0x20 ≤ c.toNat :=
  fun c hc => ⟨(h c hc).2.1, (h c hc).2.2.1, (h c hc).2.2.2⟩

/-- Parsing the inner `arguments` object `\x7b"<key>": "<value>"\x7d…`. -/
theorem wire_inner_obj (f : Nat) (kk vv r : List Char)
    (hk : ∀ c ∈ kk, c ≠ '"' ∧ c ≠ '\\' ∧ 0x20 ≤ c.toNat)
    (hv : ∀ c ∈ vv, c ≠ '"' ∧ c ≠ '\\' ∧ 0x20 ≤ c.toNat) :
    parseValue (f + 3)
        ('\x7b' :: ('"' :: (kk ++ '"' :: ':' :: ' ' :: '"' :: (vv ++ '"' :: '\x7d' :: r)))) =
      some (.jobj [(String.mk kk, .jstr (String.mk vv))], r) := by
  rw [show f + 3 = (f + 2) + 1 from rfl, parseValue_obj_quote]
  rw [show f + 2 = (f + 1) + 1 from rfl, parseMembers_clean_key (f + 1) kk hk]
  rw [parseValue_cons_space, parseValue_clean_str f vv hv ('\x7d' :: r)]
  dsimp only
  rw [show List.dropWhile isJsonWs ('\x7d' :: r) = '\x7d' :: r from by
    simp [List.dropWhile_cons, isJsonWs]]
  dsimp only
  rw [if_neg (by decide), if_pos rfl]
  rfl

/-- Parsing the outer object down to the characters following the inner
object's closing brace. -/
theorem wire_outer_obj (f : Nat) (nm kk vv r : List Char)
    (hn : ∀ c ∈ nm, c ≠ '"' ∧ c ≠ '\\' ∧ 0x20 ≤ c.toNat)
    (hk : ∀ c ∈ kk, c ≠ '"' ∧ c ≠ '\\' ∧ 0x20 ≤ c.toNat)
    (hv : ∀ c ∈ vv, c ≠ '"' ∧ c ≠ '\\' ∧ 0x20 ≤ c.toNat) :
    parseValue (f + 6) ('\x7b' :: wireTail nm kk vv r) =
      (match r.dropWhile isJsonWs with
       | [] => none
       | c3 :: r4 =>
         if c3 = ',' then
           (parseMembers (f + 3) r4).map
             (fun (p : List (String × Json) × List Char) => (("arguments",
                Json.jobj [(String.mk kk, Json.jstr (String.mk vv))]) :: p.1, p.2))
         else if c3 = '\x7d' then
           some ([("arguments",
              Json.jobj [(String.mk kk, Json.jstr (String.mk vv))])], r4)
         else none).map
        (fun (q : List (String × Json) × List Char) =>
          (Json.jobj (("tool_name", Json.jstr (String.mk nm)) :: q.1), q.2)) := by
  rw [wireTail, show f + 6 = (f + 5) + 1 from rfl, parseValue_obj_quote]
  rw [show f + 5 = (f + 4) + 1 from rfl,
    parseMembers_clean_key (f + 4) "tool_name".data (by decide)]
  rw [show f + 4 = (f + 3) + 1 from rfl, parseValue_cons_space,
    parseValue_clean_str (f + 3) nm hn]
  dsimp only
  rw [show List.dropWhile isJsonWs (',' :: ' ' :: '"' ::
      ("arguments".data ++ '"' :: ':' :: ' ' :: '\x7b' :: '"' ::
        (kk ++ '"' :: ':' :: ' ' :: '"' :: (vv ++ '"' :: '\x7d' :: r)))) =
      ',' :: ' ' :: '"' ::
      ("arguments".data ++ '"' :: ':' :: ' ' :: '\x7b' :: '"' ::
        (kk ++ '"' :: ':' :: ' ' :: '"' :: (vv ++ '"' :: '\x7d' :: r))) from by
    simp [List.dropWhile_cons, isJsonWs]]
  dsimp only
  rw [if_pos rfl]
  rw [parseMembers_cons_space, parseMembers_clean_key (f + 3) "arguments".data (by decide)]
  rw [parseValue_cons_space, wire_inner_obj f kk vv r hk hv]
  dsimp only
  cases hdw : r.dropWhile isJsonWs with
  | nil => rfl
  | cons c3 r4 =>
      dsimp only
      by_cases hc : c3 = ','
      · subst hc
        simp only [if_pos rfl, Option.map_map]
        congr 1
      · simp only [if_neg hc]
        by_cases hb : c3 = '\x7d'
        · subst hb
          simp only [if_pos rfl]
          rfl
        · simp only [if_neg hb]
          rfl

/-- The characters the regex captures from the conforming payload: its body
up to (excluding) the first closing brace — the inner object's. -/
def gBody (nm kk vv : List Char) : List Char :=
  '"' :: ("tool_name".data ++ '"' :: ':' :: ' ' :: '"' ::
    (nm ++ '"' :: ',' :: ' ' :: '"' ::
      ("arguments".data ++ '"' :: ':' :: ' ' :: '\x7b' :: '"' ::
        (kk ++ '"' :: ':' :: ' ' :: '"' ::
          (vv ++ '"' :: [])))))

theorem gBody_append (nm kk vv x : List Char) :
    gBody nm kk vv ++ '\x7d' :: x = wireTail nm kk vv x := by
  simp [gBody, wireTail, List.append_assoc]

theorem wirePayload_data (name k v : String) :
    (wirePayload name k v).data =
      '\x7b' :: wireTail name.data k.data v.data ('\x7d' :: []) := by
  simp only [wirePayload, String.data_append, wireTail]
  simp [List.append_assoc]

/-- Every character of the captured body is distinct from the closing
brace. -/
theorem gBody_no_brace {nm kk vv : List Char}
    (hn : ∀ c ∈ nm, c ≠ '\x7d') (hk : ∀ c ∈ kk, c ≠ '\x7d')
    (hv : ∀ c ∈ vv, c ≠ '\x7d') :
    ∀ c ∈ gBody nm kk vv, (decide (c ≠ '\x7d')) = true := by
  intro c hc
  rw [decide_eq_true_eq]
  intro heq
  subst heq
  simp only [gBody, List.mem_cons, List.mem_append, List.not_mem_nil] at hc
  simp at hc
  rcases hc with hc | hc | hc
  · exact hn _ hc rfl
  · exact hk _ hc rfl
  · exact hv _ hc rfl

/-- The regex capture on the conforming payload body: everything before the
inner object's closing brace. -/
theorem wireTail_takeWhile {nm kk vv : List Char}
    (hn : ∀ c ∈ nm, c ≠ '\x7d') (hk : ∀ c ∈ kk, c ≠ '\x7d')
    (hv : ∀ c ∈ vv, c ≠ '\x7d') :
    (wireTail nm kk vv ('\x7d' :: [])).takeWhile (· ≠ '\x7d') = gBody nm kk vv ∧
    (wireTail nm kk vv ('\x7d' :: [])).dropWhile (· ≠ '\x7d') = '\x7d' :: '\x7d' :: [] := by
  have hg := gBody_no_brace hn hk hv
  rw [← gBody_append nm kk vv ('\x7d' :: [])]
  constructor
  · rw [takeWhile_append_of_all _ _ _ hg]
    simp
  · rw [dropWhile_append_of_all _ _ _ hg]
    simp

theorem drop_length_append {α : Type} (l r : List α) : (l ++ r).drop l.length = r := by
  simp

/-- The conforming payload parses: `json.loads` accepts it as an object
with a string `tool_name` and a one-member `arguments` object. -/
theorem jsonLoads_wire_full (name k v : String)
    (hn : wireClean name) (hk : wireClean k) (hv : wireClean v) :
    jsonLoads (wirePayload name k v) =
      some (.jobj [("tool_name", .jstr name), ("arguments", .jobj [(k, .jstr v)])]) := by
  unfold jsonLoads
  rw [wirePayload_data]
  have hlen : 6 ≤ ('\x7b' :: wireTail name.data k.data v.data ('\x7d' :: [])).length + 1 := by
    simp [wireTail]
  obtain ⟨f, hf⟩ := Nat.exists_eq_add_of_le hlen
  rw [hf, Nat.add_comm 6 f,
    wire_outer_obj f name.data k.data v.data ('\x7d' :: [])
      (wireClean_elim hn) (wireClean_elim hk) (wireClean_elim hv)]
  simp [isJsonWs]

/-- The truncated document — the payload cut at its first closing brace and
re-wrapped — does not parse: the outer object is left unterminated. -/
theorem jsonLoads_wire_trunc (name k v : String)
    (hn : wireClean name) (hk : wireClean k) (hv : wireClean v) :
    jsonLoads (String.mk ('\x7b' :: wireTail name.data k.data v.data [])) = none := by
  unfold jsonLoads
  rw [show (String.mk ('\x7b' :: wireTail name.data k.data v.data [])).data =
    '\x7b' :: wireTail name.data k.data v.data [] from rfl]
  have hlen : 6 ≤ ('\x7b' :: wireTail name.data k.data v.data []).length + 1 := by
    simp [wireTail]
  obtain ⟨f, hf⟩ := Nat.exists_eq_add_of_le hlen
  rw [hf, Nat.add_comm 6 f,
    wire_outer_obj f name.data k.data v.data []
      (wireClean_elim hn) (wireClean_elim hk) (wireClean_elim hv)]
  simp

/-- Extraction on the conforming response: the regex captures only up to
the inner object's closing brace, the re-wrapped capture fails to parse,
and no tool call is returned. -/
theorem extract_wire_none (name k v : String)
    (hn : wireClean name) (hk : wireClean k) (hv : wireClean v) :
    extract_tool_call ("TOOL_CALL: " ++ wirePayload name k v) = none := by
  have hn' : ∀ c ∈ name.data, c ≠ '\x7d' := fun c hc => (hn c hc).1
  have hk' : ∀ c ∈ k.data, c ≠ '\x7d' := fun c hc => (hk c hc).1
  have hv' : ∀ c ∈ v.data, c ≠ '\x7d' := fun c hc => (hv c hc).1
  have hresp : ("TOOL_CALL: " ++ wirePayload name k v).data =
      "TOOL_CALL:".data ++
        (' ' :: '\x7b' :: wireTail name.data k.data v.data ('\x7d' :: [])) := by
    rw [String.data_append, wirePayload_data]
    rfl
  have hmatch : toolCallMatchAt ("TOOL_CALL:".data ++
      (' ' :: '\x7b' :: wireTail name.data k.data v.data ('\x7d' :: []))) =
      some (gBody name.data k.data v.data) := by
    unfold toolCallMatchAt toolCallMatchAt.dropMarker
    dsimp only
    rw [isPrefixOf_self_append, if_pos rfl, drop_length_append]
    dsimp only
    rw [show List.dropWhile isReSpace
        (' ' :: '\x7b' :: wireTail name.data k.data v.data ('\x7d' :: [])) =
        '\x7b' :: wireTail name.data k.data v.data ('\x7d' :: []) from by
      simp [List.dropWhile_cons, isReSpace, isPySpace]]
    dsimp only
    rw [if_pos rfl, (wireTail_takeWhile hn' hk' hv').1,
      (wireTail_takeWhile hn' hk' hv').2]
    rw [show (gBody name.data k.data v.data).isEmpty = false from rfl]
    rfl
  unfold extract_tool_call
  rw [hresp]
  rw [show toolCallSearch ("TOOL_CALL:".data ++
      (' ' :: '\x7b' :: wireTail name.data k.data v.data ('\x7d' :: []))) =
      toolCallSearch ('T' :: ('O' :: 'O' :: 'L' :: '_' :: 'C' :: 'A' :: 'L' :: 'L' :: ':' ::
        (' ' :: '\x7b' :: wireTail name.data k.data v.data ('\x7d' :: [])))) from rfl]
  rw [toolCallSearch]
  rw [show ('T' :: ('O' :: 'O' :: 'L' :: '_' :: 'C' :: 'A' :: 'L' :: 'L' :: ':' ::
      (' ' :: '\x7b' :: wireTail name.data k.data v.data ('\x7d' :: [])))) =
      "TOOL_CALL:".data ++
        (' ' :: '\x7b' :: wireTail name.data k.data v.data ('\x7d' :: [])) from rfl]
  rw [hmatch]
  dsimp only
  rw [show ('\x7b' :: gBody name.data k.data v.data ++ ['\x7d']) =
      '\x7b' :: wireTail name.data k.data v.data [] from by
    rw [List.cons_append, gBody_append]]
  rw [jsonLoads_wire_trunc name k v hn hk hv]

/-- C10.  For every conforming wire payload whose `arguments` field is a
non-empty JSON object — here the full family
`\x7b"tool_name": "<name>", "arguments": \x7b"<key>": "<value>"\x7d\x7d`
over brace/quote/backslash/control-free strings — the payload itself is
valid JSON of the declared tool-call format, yet extraction returns no tool
call, and the reasoning loop treats the entire response as the final
answer. -/
theorem C10_nested_arguments_defeat_extraction (name k v : String)
    (hn : wireClean name) (hk : wireClean k) (hv : wireClean v) :
    jsonLoads (wirePayload name k v) =
      some (.jobj [("tool_name", .jstr name), ("arguments", .jobj [(k, .jstr v)])]) ∧
    extract_tool_call ("TOOL_CALL: " ++ wirePayload name k v) = none ∧
    (∀ (f : String → String) (reg : List (String × ExecTool)) (gw : GatewayFn)
        (max_iterations : Nat) (initial_prompt : String)
        (remaining done : Nat) (prompt : String) (arts : List Nat),
      f prompt = "TOOL_CALL: " ++ wirePayload name k v →
      reasoningLoopGo (some f) reg gw max_iterations initial_prompt
          (remaining + 1) done prompt arts =
        ⟨f prompt, done + 1, arts⟩) := by
  refine ⟨jsonLoads_wire_full name k v hn hk hv,
    extract_wire_none name k v hn hk hv, ?_⟩
  intro f reg gw max_iterations initial_prompt remaining done prompt arts hfp
  have hx : extract_tool_call (f prompt) = none := by
    rw [hfp]
    exact extract_wire_none name k v hn hk hv
  simp only [reasoningLoopGo, hx]

/-- Witness for C10 at a concrete conforming payload
`TOOL_CALL: \x7b"tool_name": "shell", "arguments": \x7b"command": "ls"\x7d\x7d`. -/
theorem C10_nested_arguments_defeat_extraction_witness :
    jsonLoads (wirePayload "shell" "command" "ls") =
      some (.jobj [("tool_name", .jstr "shell"),
                   ("arguments", .jobj [("command", .jstr "ls")])]) ∧
    extract_tool_call ("TOOL_CALL: " ++ wirePayload "shell" "command" "ls") = none ∧
    reasoningLoopGo
        (some (fun _ => "TOOL_CALL: " ++ wirePayload "shell" "command" "ls"))
        [] (fun _ _ => .ok ⟨"", [], true, none⟩) 10 "sys" (9 + 1) 0 "sys" [] =
      ⟨(fun (_ : String) => "TOOL_CALL: " ++ wirePayload "shell" "command" "ls") "sys",
        0 + 1, []⟩ := by
  have h := C10_nested_arguments_defeat_extraction "shell" "command" "ls"
    (by decide) (by decide) (by decide)
  exact ⟨h.1, h.2.1,
    h.2.2 (fun _ => "TOOL_CALL: " ++ wirePayload "shell" "command" "ls")
      [] (fun _ _ => .ok ⟨"", [], true, none⟩) 10 "sys" 9 0 "sys" [] rfl⟩

end Hedwig
